import Mathlib

/-!
Verification of the exercise-analyzer core of the Fitness AI repository.

The embedded source is the pose-analysis module (MediaPipe landmark based):
the pure geometry helpers `calculateAngle` and `calculateDistance`, the four
stateful analyzer classes (`SquatAnalyzer`, `PushupAnalyzer`, `PlankAnalyzer`,
`JumpingJackAnalyzer`) and the factory `createAnalyzer`.

Modelling conventions:
* JS numbers are modelled by rationals for landmark data and by real numbers
  where the code takes square roots or inverse cosines. All concrete data in
  the source are finite numbers, so this is exact.
* The one place where the IEEE value NaN can arise in the source is the
  division inside calculateAngle when a vector length is zero (JS gives
  0 / 0 = NaN there, and NaN then propagates through clamp, acos, the
  angle comparisons, min, max and round). We model this with Option:
  none is NaN. JS comparisons with NaN are false; Math.min, Math.max and
  Math.round of NaN are NaN; the helpers below implement exactly that.
* Each analyzer class becomes a structure holding its mutable fields, and
  each method becomes a function from the structure (and the frame) to the
  updated structure together with the returned record.
-/

/-- One pose landmark: `{x, y, z?, visibility?}` (source lines 6-11).
The fields z and visibility are optional in the source. -/
structure Landmark where
  x : ℚ
  y : ℚ
  z : Option ℚ := none
  visibility : Option ℚ := none
  deriving DecidableEq, Repr

/-- A frame is the landmark array handed to analyze(); indexing past the end
of the array yields undefined in JS, modelled by Option-valued indexing. -/
abbrev Frame := List Landmark

/-- The record returned by every analyze() (source lines 13-19).
score is Option-valued because NaN (none) can leak into it, see calculateAngle. -/
structure ExerciseAnalysis where
  isCorrect : Bool
  score : Option ℚ
  feedback : String
  count : Option ℕ := none
  duration : Option ℚ := none
  deriving DecidableEq, Repr

/-- JS truthiness test of the chain `p?.visibility && p.visibility >= 0.5`:
true iff the landmark is present, has a visibility field, and that visibility
is at least 0.5 (a visibility of 0 is falsy in JS, and 0 < 0.5, so the extra
truthiness conjunct changes nothing). -/
def visOk (p : Option Landmark) : Bool :=
  match p with
  | some l =>
    match l.visibility with
    | some v => decide ((1 : ℚ)/2 ≤ v)
    | none => false
  | none => false

/-- JS `p?.visibility || 0`: the visibility of a landmark, defaulting to 0
when the landmark or its visibility field is absent. -/
def visOf (p : Option Landmark) : ℚ :=
  match p with
  | some l => l.visibility.getD 0
  | none => 0

/-- JS `x < c` where x may be NaN (none): comparisons with NaN are false. -/
noncomputable def jsLtB (x : Option ℝ) (c : ℝ) : Bool :=
  match x with
  | some v => decide (v < c)
  | none => false

/-- JS `x > c` where x may be NaN (none): comparisons with NaN are false. -/
noncomputable def jsGtB (x : Option ℝ) (c : ℝ) : Bool :=
  match x with
  | some v => decide (c < v)
  | none => false

/-- JS `Math.max(a, x)` with a finite first argument: NaN absorbs. -/
def jsMax (a : ℝ) (x : Option ℝ) : Option ℝ := x.map (fun v => max a v)

/-- JS `Math.min(a, x)` with a finite first argument: NaN absorbs. -/
def jsMin (a : ℝ) (x : Option ℝ) : Option ℝ := x.map (fun v => min a v)

/-- JS `Math.round` (round half towards positive infinity) on a possibly-NaN
value; Math.round(NaN) is NaN. -/
noncomputable def jsRound (x : Option ℝ) : Option ℤ := x.map (fun v => ⌊v + 1/2⌋)

/-- calculateAngle (source lines 25-53): the angle at vertex point2 between
the vectors towards point1 and point3, via acos of the clamped cosine, in
degrees. When a vector has length zero the JS division yields NaN (0/0), the
clamp and acos keep NaN, and the function returns NaN — the try/catch around
the computation is dead code because JS Math functions return NaN instead of
throwing. We return none exactly in that case. -/
noncomputable def calculateAngle (point1 point2 point3 : Landmark) : Option ℝ :=
  let ba : ℚ × ℚ := (point1.x - point2.x, point1.y - point2.y)
  let bc : ℚ × ℚ := (point3.x - point2.x, point3.y - point2.y)
  let dotProduct : ℚ := ba.1 * bc.1 + ba.2 * bc.2
  let baLength : ℝ := Real.sqrt ((ba.1 : ℝ)^2 + (ba.2 : ℝ)^2)
  let bcLength : ℝ := Real.sqrt ((bc.1 : ℝ)^2 + (bc.2 : ℝ)^2)
  if baLength * bcLength = 0 then none
  else
    let cosAngle : ℝ := max (min ((dotProduct : ℝ) / (baLength * bcLength)) 1) (-1)
    some (Real.arccos cosAngle * 180 / Real.pi)

/-- calculateDistance (source lines 58-65): planar Euclidean distance. -/
noncomputable def calculateDistance (point1 point2 : Landmark) : ℝ :=
  Real.sqrt (((point2.x : ℝ) - (point1.x : ℝ))^2 + ((point2.y : ℝ) - (point1.y : ℝ))^2)

/-! ## SquatAnalyzer (source lines 71-237) -/

/-- The two squat / pushup phases. -/
inductive UD where
  | up
  | down
  deriving DecidableEq, Repr

/-- The mutable fields of the SquatAnalyzer class (source lines 72-86).
The class constants angleThreshold = standingThreshold = 140,
requiredFrames = 2, cooldownFrames = 10 appear inline below. -/
structure SquatAnalyzer where
  squatCount : ℕ
  lastState : UD
  inSquatPosition : Bool
  consecutiveUpFrames : ℕ
  consecutiveDownFrames : ℕ
  stateChangedFrames : ℕ
  cooldownCounter : ℕ
  deriving DecidableEq, Repr

/-- The field initializers of SquatAnalyzer. -/
def SquatAnalyzer.init : SquatAnalyzer :=
  ⟨0, .up, false, 0, 0, 0, 0⟩

/-- Source lines 97-99: the left leg is usable iff hip 23, knee 25 and
ankle 27 are all present with visibility at least 0.5. -/
def squatLeftVisible (landmarks : Frame) : Bool :=
  visOk landmarks[23]? && visOk landmarks[25]? && visOk landmarks[27]?

/-- Source lines 100-102: same for the right leg (indices 24, 26, 28). -/
def squatRightVisible (landmarks : Frame) : Bool :=
  visOk landmarks[24]? && visOk landmarks[26]? && visOk landmarks[28]?

/-- Source lines 113-128: the knee angle of the selected leg. The side with
the larger summed visibility wins when that side is also usable; otherwise
the right side is tried, then the left side; the default is 180. This is a
pure function of the frame (the source reads no instance state here). The
match arms are the truthiness guards on the landmarks in the source; when a
side is usable all its landmarks are present, so the fallbacks are dead. -/
noncomputable def squatKneeAngle (landmarks : Frame) : Option ℝ :=
  let leftVisibility := visOf landmarks[23]? + visOf landmarks[25]? + visOf landmarks[27]?
  let rightVisibility := visOf landmarks[24]? + visOf landmarks[26]? + visOf landmarks[28]?
  if rightVisibility < leftVisibility ∧ squatLeftVisible landmarks = true then
    match landmarks[23]?, landmarks[25]?, landmarks[27]? with
    | some h, some k, some a => calculateAngle h k a
    | _, _, _ => some 180
  else if squatRightVisible landmarks = true then
    match landmarks[24]?, landmarks[26]?, landmarks[28]? with
    | some h, some k, some a => calculateAngle h k a
    | _, _, _ => some 180
  else if squatLeftVisible landmarks = true then
    match landmarks[23]?, landmarks[25]?, landmarks[27]? with
    | some h, some k, some a => calculateAngle h k a
    | _, _, _ => some 180
  else some 180

/-- detectSquatState (source lines 183-192); both thresholds are 140, and a
NaN angle falls through both comparisons to the last-state branch. -/
noncomputable def SquatAnalyzer.detectSquatState (s : SquatAnalyzer) (kneeAngle : Option ℝ) : UD :=
  if jsLtB kneeAngle 140 = true then .down
  else if jsGtB kneeAngle 140 = true then .up
  else s.lastState

/-- updateCount (source lines 194-226). The cooldown counter is decremented
first; a state change is acted on only when the previous state was held for
at least 3 frames; up to down sets the in-squat flag when the (decremented)
cooldown is 0; down to up with the flag set counts when the cooldown is 0
and always clears the flag; lastState is always set to the new state. -/
def SquatAnalyzer.updateCount (s : SquatAnalyzer) (currentState : UD) : SquatAnalyzer × Bool :=
  let cd := if 0 < s.cooldownCounter then s.cooldownCounter - 1 else s.cooldownCounter
  if currentState ≠ s.lastState then
    if 3 ≤ s.stateChangedFrames then
      if s.lastState ≠ .down ∧ currentState = .down ∧ cd = 0 then
        ({ s with inSquatPosition := true, stateChangedFrames := 0,
                  cooldownCounter := cd, lastState := currentState }, false)
      else if s.lastState = .down ∧ currentState = .up ∧ s.inSquatPosition = true then
        if cd = 0 then
          ({ s with squatCount := s.squatCount + 1, cooldownCounter := 10,
                    inSquatPosition := false, stateChangedFrames := 0,
                    lastState := currentState }, true)
        else
          ({ s with inSquatPosition := false, stateChangedFrames := 0,
                    cooldownCounter := cd, lastState := currentState }, false)
      else
        ({ s with stateChangedFrames := 0, cooldownCounter := cd,
                  lastState := currentState }, false)
    else
      ({ s with cooldownCounter := cd, lastState := currentState }, false)
  else
    ({ s with stateChangedFrames := s.stateChangedFrames + 1, cooldownCounter := cd,
              lastState := currentState }, false)

/-- Source lines 130-180 after the knee angle is known: state update,
count update, feedback, score and correctness. -/
noncomputable def SquatAnalyzer.analyzeCore (s : SquatAnalyzer) (kneeAngle : Option ℝ) :
    SquatAnalyzer × ExerciseAnalysis :=
  let currentState := s.detectSquatState kneeAngle
  let s1 :=
    if currentState = .up then
      { s with consecutiveUpFrames := s.consecutiveUpFrames + 1, consecutiveDownFrames := 0 }
    else
      { s with consecutiveDownFrames := s.consecutiveDownFrames + 1, consecutiveUpFrames := 0 }
  let confirmedState :=
    if 2 ≤ s1.consecutiveUpFrames then UD.up
    else if 2 ≤ s1.consecutiveDownFrames then UD.down
    else s1.lastState
  let s2 := (s1.updateCount confirmedState).1
  let feedback :=
    if confirmedState = .down then "很好！下蹲姿势正确，请站起来完成动作"
    else "站立姿势正确，请尝试下蹲"
  let score :=
    if confirmedState = .down then
      jsRound (jsMax 70 ((jsMax 0 (kneeAngle.map (fun a => a - 90))).map (fun m => 100 - m)))
    else
      jsRound (jsMin 100 (jsMax 70 kneeAngle))
  let isCorrect :=
    if confirmedState = .down then jsLtB kneeAngle 120
    else jsGtB kneeAngle 150
  (s2, { isCorrect := isCorrect, score := score.map (fun z => (z : ℚ)),
         feedback := feedback, count := some s2.squatCount })

/-- analyze (source lines 88-181): the out-of-view early return, then the
side selection and the core state machine. -/
noncomputable def SquatAnalyzer.analyze (s : SquatAnalyzer) (landmarks : Frame) :
    SquatAnalyzer × ExerciseAnalysis :=
  if !squatLeftVisible landmarks && !squatRightVisible landmarks then
    (s, { isCorrect := false, score := some 0, feedback := "请确保下半身在摄像头范围内",
          count := some s.squatCount })
  else
    s.analyzeCore (squatKneeAngle landmarks)

/-- reset (source lines 228-236): every mutable field is reinitialized. -/
def SquatAnalyzer.reset (_s : SquatAnalyzer) : SquatAnalyzer :=
  SquatAnalyzer.init

/-! ## PushupAnalyzer (source lines 243-419) -/

/-- The mutable fields of the PushupAnalyzer class (source lines 244-258).
Constants: angleThreshold = 115, straightThreshold = 155, requiredFrames = 5,
cooldownFrames = 15. -/
structure PushupAnalyzer where
  pushupCount : ℕ
  lastState : UD
  inDownPosition : Bool
  consecutiveUpFrames : ℕ
  consecutiveDownFrames : ℕ
  stateChangedFrames : ℕ
  cooldownCounter : ℕ
  deriving DecidableEq, Repr

/-- The field initializers of PushupAnalyzer. -/
def PushupAnalyzer.init : PushupAnalyzer :=
  ⟨0, .up, false, 0, 0, 0, 0⟩

/-- Source lines 267-268: left shoulder 11 and elbow 13 both visible. -/
def pushupLeftVisible (landmarks : Frame) : Bool :=
  visOk landmarks[11]? && visOk landmarks[13]?

/-- Source lines 269-270: right shoulder 12 and elbow 14 both visible. -/
def pushupRightVisible (landmarks : Frame) : Bool :=
  visOk landmarks[12]? && visOk landmarks[14]?

/-- Source line 272: the early-return condition of PushupAnalyzer.analyze.
JS operator precedence: (!leftVisible && !rightVisible) || any landmark
missing. (The second identical missing-landmark check at lines 281-288 of
the source is dead code.) -/
def pushupRejected (landmarks : Frame) : Bool :=
  (!pushupLeftVisible landmarks && !pushupRightVisible landmarks) ||
    landmarks[11]?.isNone || landmarks[12]?.isNone ||
    landmarks[13]?.isNone || landmarks[14]?.isNone

/-- Source lines 290-310: the average arm angle. Each wrist (indices 15, 16)
is taken only when visible; the angle of each taken arm is computed from
that side, and the average of the collected angles is used; with no wrist
the initial value 180 survives. A NaN angle (none) propagates through the
sum and the division exactly as in JS. -/
noncomputable def pushupArmAngle (lS rS lE rE : Landmark) (landmarks : Frame) : Option ℝ :=
  let leftWrist := if visOk landmarks[15]? = true then landmarks[15]? else none
  let rightWrist := if visOk landmarks[16]? = true then landmarks[16]? else none
  let armAngles : List (Option ℝ) :=
    (match leftWrist with
     | some w => [calculateAngle lS lE w]
     | none => []) ++
    (match rightWrist with
     | some w => [calculateAngle rS rE w]
     | none => [])
  if 0 < armAngles.length then
    (armAngles.foldl (fun acc a => acc.bind (fun x => a.map (fun v => x + v))) (some 0)).map
      (fun t => t / (armAngles.length : ℝ))
  else some 180

/-- detectPushupState (source lines 365-374): down below 115, up above 155,
otherwise (including NaN) the previous state. -/
noncomputable def PushupAnalyzer.detectPushupState (s : PushupAnalyzer) (armAngle : Option ℝ) : UD :=
  if jsLtB armAngle 115 = true then .down
  else if jsGtB armAngle 155 = true then .up
  else s.lastState

/-- updatePushupCount (source lines 376-408): same shape as the squat
counter with cooldownFrames = 15. -/
def PushupAnalyzer.updatePushupCount (s : PushupAnalyzer) (currentState : UD) :
    PushupAnalyzer × Bool :=
  let cd := if 0 < s.cooldownCounter then s.cooldownCounter - 1 else s.cooldownCounter
  if currentState ≠ s.lastState then
    if 3 ≤ s.stateChangedFrames then
      if s.lastState ≠ .down ∧ currentState = .down ∧ cd = 0 then
        ({ s with inDownPosition := true, stateChangedFrames := 0,
                  cooldownCounter := cd, lastState := currentState }, false)
      else if s.lastState = .down ∧ currentState = .up ∧ s.inDownPosition = true then
        if cd = 0 then
          ({ s with pushupCount := s.pushupCount + 1, cooldownCounter := 15,
                    inDownPosition := false, stateChangedFrames := 0,
                    lastState := currentState }, true)
        else
          ({ s with inDownPosition := false, stateChangedFrames := 0,
                    cooldownCounter := cd, lastState := currentState }, false)
      else
        ({ s with stateChangedFrames := 0, cooldownCounter := cd,
                  lastState := currentState }, false)
    else
      ({ s with cooldownCounter := cd, lastState := currentState }, false)
  else
    ({ s with stateChangedFrames := s.stateChangedFrames + 1, cooldownCounter := cd,
              lastState := currentState }, false)

/-- Source lines 312-362 after the arm angle is known: state update, count
update, feedback, score (floored at 60) and correctness. -/
noncomputable def PushupAnalyzer.analyzeCore (s : PushupAnalyzer) (avgArmAngle : Option ℝ) :
    PushupAnalyzer × ExerciseAnalysis :=
  let currentState := s.detectPushupState avgArmAngle
  let s1 :=
    if currentState = .up then
      { s with consecutiveUpFrames := s.consecutiveUpFrames + 1, consecutiveDownFrames := 0 }
    else
      { s with consecutiveDownFrames := s.consecutiveDownFrames + 1, consecutiveUpFrames := 0 }
  let confirmedState :=
    if 5 ≤ s1.consecutiveUpFrames then UD.up
    else if 5 ≤ s1.consecutiveDownFrames then UD.down
    else s1.lastState
  let s2 := (s1.updatePushupCount confirmedState).1
  let feedback :=
    if confirmedState = .down then "已下降，请向上推起"
    else "已上升，请下降"
  let score :=
    if confirmedState = .down then
      jsRound (jsMax 60 ((jsMax 0 (avgArmAngle.map (fun a => a - 90))).map (fun m => 100 - m)))
    else
      jsRound (jsMin 100 (jsMax 60 avgArmAngle))
  let isCorrect :=
    if confirmedState = .down then jsLtB avgArmAngle 100
    else jsGtB avgArmAngle 150
  (s2, { isCorrect := isCorrect, score := score.map (fun z => (z : ℚ)),
         feedback := feedback, count := some s2.pushupCount })

/-- analyze (source lines 260-363). -/
noncomputable def PushupAnalyzer.analyze (s : PushupAnalyzer) (landmarks : Frame) :
    PushupAnalyzer × ExerciseAnalysis :=
  if pushupRejected landmarks = true then
    (s, { isCorrect := false, score := some 0, feedback := "请确保上半身在摄像头范围内",
          count := some s.pushupCount })
  else
    match landmarks[11]?, landmarks[12]?, landmarks[13]?, landmarks[14]? with
    | some lS, some rS, some lE, some rE =>
      s.analyzeCore (pushupArmAngle lS rS lE rE landmarks)
    | _, _, _, _ =>
      (s, { isCorrect := false, score := some 0, feedback := "请确保上半身在摄像头范围内",
            count := some s.pushupCount })

/-- reset (source lines 410-418): every mutable field is reinitialized. -/
def PushupAnalyzer.reset (_s : PushupAnalyzer) : PushupAnalyzer :=
  PushupAnalyzer.init

/-! ## PlankAnalyzer (source lines 425-545) -/

/-- The mutable fields of the PlankAnalyzer class (source lines 426-440).
Constants: elbowAngleThreshold and bodyAlignmentTolerance are never read;
minStableFrames = 10, maxUnstableFrames = 5, fps = 30. -/
structure PlankAnalyzer where
  plankDuration : ℕ
  isInPlank : Bool
  stableFrames : ℕ
  unstableFrames : ℕ
  deriving DecidableEq, Repr

/-- The field initializers of PlankAnalyzer. -/
def PlankAnalyzer.init : PlankAnalyzer :=
  ⟨0, false, 0, 0⟩

/-- Source line 454: the early-return condition of PlankAnalyzer.analyze,
identical in shape to the pushup one (shoulders 11/12, elbows 13/14). -/
def plankRejected (landmarks : Frame) : Bool :=
  (!(visOk landmarks[11]? && visOk landmarks[13]?) &&
   !(visOk landmarks[12]? && visOk landmarks[14]?)) ||
    landmarks[11]?.isNone || landmarks[12]?.isNone ||
    landmarks[13]?.isNone || landmarks[14]?.isNone

/-- Source line 469: both elbows below their shoulders in image coordinates
(y grows downwards, so the elbow y must exceed the shoulder y). -/
def plankFormOk (landmarks : Frame) : Bool :=
  match landmarks[11]?, landmarks[12]?, landmarks[13]?, landmarks[14]? with
  | some lS, some rS, some lE, some rE =>
    decide (lS.y < lE.y) && decide (rS.y < rE.y)
  | _, _, _, _ => false

/-- generatePlankFeedback (source lines 517-537), reading the already
updated counters. The toFixed(1) decimal rendering of the source is
abstracted by exact rational printing; the spec treats feedback as a
semantic category, not a mandated literal string. -/
def PlankAnalyzer.generatePlankFeedback (s : PlankAnalyzer)
    (isCorrectForm elbowsUnderShoulders : Bool) : String :=
  if isCorrectForm = false ∧ elbowsUnderShoulders = false then "肘部应在肩部下方"
  else if s.stableFrames < 10 then
    "保持姿势稳定，还需 " ++ toString (10 - s.stableFrames) ++ " 帧"
  else
    let durationSeconds : ℚ := (s.plankDuration : ℚ) / 30
    if durationSeconds < 10 then "姿势正确，已坚持 " ++ toString durationSeconds ++ " 秒"
    else if durationSeconds < 30 then "做得好！已坚持 " ++ toString durationSeconds ++ " 秒"
    else "太棒了！已坚持 " ++ toString durationSeconds ++ " 秒"

/-- analyze (source lines 442-515). The hip landmarks fetched at lines
464-465 are never used. On a correct-form frame the stability counter
grows, and the duration accrues only once it has reached 10; on a failing
frame the unstable counter must exceed 5 before the stability counter
starts to decay, and the in-plank flag drops once it falls below
minStableFrames / 3 (a JS float division: 10/3). -/
def PlankAnalyzer.analyze (s : PlankAnalyzer) (landmarks : Frame) :
    PlankAnalyzer × ExerciseAnalysis :=
  if plankRejected landmarks = true then
    (s, { isCorrect := false, score := some 0, feedback := "请确保上半身在摄像头范围内",
          duration := some ((s.plankDuration : ℚ) / 30) })
  else
    let elbowsUnderShoulders := plankFormOk landmarks
    let isCorrectForm := elbowsUnderShoulders
    let s1 :=
      if isCorrectForm = true then
        let st := s.stableFrames + 1
        if 10 ≤ st then
          { s with stableFrames := st, unstableFrames := 0, isInPlank := true,
                   plankDuration := s.plankDuration + 1 }
        else
          { s with stableFrames := st, unstableFrames := 0 }
      else
        let un := s.unstableFrames + 1
        if 5 < un then
          let st := if 0 < s.stableFrames then s.stableFrames - 1 else s.stableFrames
          if (st : ℚ) < 10 / 3 then
            { s with unstableFrames := un, stableFrames := st, isInPlank := false }
          else
            { s with unstableFrames := un, stableFrames := st }
        else
          { s with unstableFrames := un }
    let feedback := s1.generatePlankFeedback isCorrectForm elbowsUnderShoulders
    let score : ℚ := if isCorrectForm = true then 80 else 60
    let isCorrect := isCorrectForm && decide ((10 : ℕ) ≤ s1.stableFrames)
    (s1, { isCorrect := isCorrect, score := some score, feedback := feedback,
           duration := some ((s1.plankDuration : ℚ) / 30) })

/-- reset (source lines 539-544): every mutable field is reinitialized. -/
def PlankAnalyzer.reset (_s : PlankAnalyzer) : PlankAnalyzer :=
  PlankAnalyzer.init

/-! ## JumpingJackAnalyzer (source lines 551-770) -/

/-- The two jumping-jack raw states; the source string literal for the
second one is the JS keyword-like name open, spelled opened here because
open is a Lean keyword. -/
inductive OC where
  | closed
  | opened
  deriving DecidableEq, Repr

/-- The movement phases of the jumping-jack cycle tracker. -/
inductive MovementPhase where
  | none
  | opening
  | closing
  | complete
  deriving DecidableEq, Repr

/-- The mutable fields of the JumpingJackAnalyzer class (source lines
552-570). Constants: armThreshold = 1.4, armHeightThreshold = 0.05,
requiredFrames = 3, cooldownFrames = 10, armRatioChangeThreshold = 0.5
(the latter feeds only the dead isSmoothMovement computation). -/
structure JumpingJackAnalyzer where
  jumpCount : ℕ
  lastState : OC
  consecutiveOpenFrames : ℕ
  consecutiveClosedFrames : ℕ
  cooldownCounter : ℕ
  movementPhase : MovementPhase
  inOpenPosition : Bool
  lastArmRatio : ℝ

/-- The field initializers of JumpingJackAnalyzer. -/
noncomputable def JumpingJackAnalyzer.init : JumpingJackAnalyzer :=
  ⟨0, .closed, 0, 0, 0, .none, false, 0⟩

/-- Source line 584: the early-return condition of
JumpingJackAnalyzer.analyze: shoulders 11 and 12 both visible, at least one
wrist of 15 and 16 visible, and all four of these landmarks present (the
duplicated presence check at lines 593-600 of the source is dead code). -/
def jjRejected (landmarks : Frame) : Bool :=
  !(visOk landmarks[11]? && visOk landmarks[12]?) ||
  !(visOk landmarks[15]? || visOk landmarks[16]?) ||
    landmarks[11]?.isNone || landmarks[12]?.isNone ||
    landmarks[15]?.isNone || landmarks[16]?.isNone

/-- updateJumpingJackCount (source lines 676-706): closed to opened starts a
cycle when the phase is none or complete; opened to closed during an opening
with the open-position flag set completes it, counting only when the
cooldown is 0 (otherwise the phase is left as closing, with no count). -/
def JumpingJackAnalyzer.updateJumpingJackCount (s : JumpingJackAnalyzer)
    (previousState currentState : OC) : JumpingJackAnalyzer × Bool :=
  if previousState ≠ currentState then
    if previousState = .closed ∧ currentState = .opened then
      if s.movementPhase = .none ∨ s.movementPhase = .complete then
        ({ s with movementPhase := .opening, inOpenPosition := true }, false)
      else (s, false)
    else if previousState = .opened ∧ currentState = .closed then
      if s.movementPhase = .opening ∧ s.inOpenPosition = true then
        if s.cooldownCounter = 0 then
          ({ s with movementPhase := .complete, inOpenPosition := false,
                    jumpCount := s.jumpCount + 1, cooldownCounter := 10 }, true)
        else
          ({ s with movementPhase := .closing, inOpenPosition := false }, false)
      else (s, false)
    else (s, false)
  else (s, false)

/-- generateJumpingJackFeedback (source lines 708-729), reading the already
updated movement phase. -/
def JumpingJackAnalyzer.generateJumpingJackFeedback (s : JumpingJackAnalyzer)
    (state : OC) (_armsOpen armsRaised : Bool) : String :=
  if state = .opened then
    if s.movementPhase = .opening then "很好！手臂张开，准备合拢"
    else "保持手臂张开姿势"
  else
    if s.movementPhase = .closing then "很好！完成一次开合跳"
    else if s.movementPhase = .complete then "准备下一次开合跳"
    else if armsRaised = false then "请将手臂抬高到肩部以上"
    else "请跳起并张开手臂"

/-- calculateJumpingJackScore (source lines 731-758); the armRatio
parameter is unused in the source body as well. -/
def JumpingJackAnalyzer.calculateJumpingJackScore (s : JumpingJackAnalyzer)
    (state : OC) (armsOpen armsRaised : Bool) : ℚ :=
  if state = .opened then
    if armsOpen = true ∧ armsRaised = true then 90
    else if armsRaised = true then 75
    else 60
  else
    if s.movementPhase = .complete then 85
    else if s.movementPhase = .closing then 80
    else 60

/-- Source lines 602-673 after the gate, as a function of the arm ratio
(wrist distance over the floored shoulder distance) and the arms-raised
flag: raw open/closed state, debounce over 3 frames, cooldown decrement,
cycle tracking, and the displayed count jumpCount / 2 rounded down. The
lastArmRatio field is updated with the ratio of every accepted frame
(source line 620); the isSmoothMovement value it feeds is dead code. -/
noncomputable def JumpingJackAnalyzer.analyzeCore (s : JumpingJackAnalyzer)
    (armRatio : ℝ) (armsRaised : Bool) : JumpingJackAnalyzer × ExerciseAnalysis :=
  let armsOpen := decide ((7 : ℝ)/5 < armRatio)
  let s0 := { s with lastArmRatio := armRatio }
  let currentState : OC := if armsOpen = true then .opened else .closed
  let s1 :=
    if currentState = .opened then
      { s0 with consecutiveOpenFrames := s0.consecutiveOpenFrames + 1,
                consecutiveClosedFrames := 0 }
    else
      { s0 with consecutiveClosedFrames := s0.consecutiveClosedFrames + 1,
                consecutiveOpenFrames := 0 }
  let previousState := s1.lastState
  let confirmedState :=
    if 3 ≤ s1.consecutiveOpenFrames then OC.opened
    else if 3 ≤ s1.consecutiveClosedFrames then OC.closed
    else s1.lastState
  let s2 := if 0 < s1.cooldownCounter then { s1 with cooldownCounter := s1.cooldownCounter - 1 }
            else s1
  let s3 := (s2.updateJumpingJackCount previousState confirmedState).1
  let s4 := { s3 with lastState := confirmedState }
  let feedback := s4.generateJumpingJackFeedback confirmedState armsOpen armsRaised
  let score := s4.calculateJumpingJackScore confirmedState armsOpen armsRaised
  let isCorrect := decide (s4.movementPhase = .complete) ||
    (decide (confirmedState = .opened) && armsOpen) || (armsOpen && armsRaised)
  (s4, { isCorrect := isCorrect, score := some score, feedback := feedback,
         count := some (s4.jumpCount / 2) })

/-- analyze (source lines 572-674): the gate, then the geometry (the arm
ratio divides the raw wrist-to-wrist distance by the shoulder distance
floored at 0.1, and an arm counts as raised when its wrist y is more than
0.05 above its shoulder y), then the core. The wrist coordinates are used
raw: a wrist that failed the visibility test still enters both distances. -/
noncomputable def JumpingJackAnalyzer.analyze (s : JumpingJackAnalyzer) (landmarks : Frame) :
    JumpingJackAnalyzer × ExerciseAnalysis :=
  if jjRejected landmarks = true then
    (s, { isCorrect := false, score := some 0, feedback := "请确保上半身在摄像头范围内",
          count := some s.jumpCount })
  else
    match landmarks[11]?, landmarks[12]?, landmarks[15]?, landmarks[16]? with
    | some lS, some rS, some lW, some rW =>
      let armRatio := calculateDistance lW rW / max (calculateDistance lS rS) (1/10)
      let armsRaised := decide (lW.y < lS.y - 1/20) || decide (rW.y < rS.y - 1/20)
      s.analyzeCore armRatio armsRaised
    | _, _, _, _ =>
      (s, { isCorrect := false, score := some 0, feedback := "请确保上半身在摄像头范围内",
            count := some s.jumpCount })

/-- reset (source lines 760-769): every mutable field is reinitialized. -/
noncomputable def JumpingJackAnalyzer.reset (_s : JumpingJackAnalyzer) : JumpingJackAnalyzer :=
  JumpingJackAnalyzer.init

/-! ## createAnalyzer (source lines 775-788) -/

/-- A tracker is one of the four analyzers with its state. -/
inductive Tracker where
  | squat (s : SquatAnalyzer)
  | pushup (s : PushupAnalyzer)
  | plank (s : PlankAnalyzer)
  | jumpingJack (s : JumpingJackAnalyzer)

/-- createAnalyzer (source lines 775-788): unknown exercise types fall back
to a squat analyzer. -/
noncomputable def createAnalyzer (exerciseType : String) : Tracker :=
  if exerciseType = "squat" then .squat SquatAnalyzer.init
  else if exerciseType = "pushup" then .pushup PushupAnalyzer.init
  else if exerciseType = "plank" then .plank PlankAnalyzer.init
  else if exerciseType = "jumping_jack" then .jumpingJack JumpingJackAnalyzer.init
  else .squat SquatAnalyzer.init

/-- Dispatching analyze over a tracker. -/
noncomputable def Tracker.analyze : Tracker → Frame → Tracker × ExerciseAnalysis
  | .squat s, lm => let r := s.analyze lm; (.squat r.1, r.2)
  | .pushup s, lm => let r := s.analyze lm; (.pushup r.1, r.2)
  | .plank s, lm => let r := s.analyze lm; (.plank r.1, r.2)
  | .jumpingJack s, lm => let r := s.analyze lm; (.jumpingJack r.1, r.2)

/-! ## Concrete landmarks and frames used by witnesses and counterexamples -/

/-- A landmark with no visibility field: never usable. -/
def blankLm : Landmark := ⟨0, 0, none, none⟩

/-- Vertical chain, top point (visibility 0.9). -/
def vTop : Landmark := ⟨1/2, 3/10, none, some (9/10)⟩

/-- Vertical chain, middle point (visibility 0.9). -/
def vMid : Landmark := ⟨1/2, 1/2, none, some (9/10)⟩

/-- Vertical chain, bottom point (visibility 0.9). -/
def vBot : Landmark := ⟨1/2, 7/10, none, some (9/10)⟩

/-- A point left of vMid (visibility 0.9): gives a right angle at vMid. -/
def pSide : Landmark := ⟨3/10, 1/2, none, some (9/10)⟩

/-- Jumping-jack shoulders (distance 1/5 apart, visibility 0.9). -/
def jShL : Landmark := ⟨2/5, 1/2, none, some (9/10)⟩

/-- Right jumping-jack shoulder. -/
def jShR : Landmark := ⟨3/5, 1/2, none, some (9/10)⟩

/-- Jumping-jack open wrists (distance 1 apart, visibility 0.9). -/
def jWoL : Landmark := ⟨0, 1/2, none, some (9/10)⟩

/-- Right open wrist. -/
def jWoR : Landmark := ⟨1, 1/2, none, some (9/10)⟩

/-- Jumping-jack closed wrists (distance 1/10 apart, visibility 0.9). -/
def jWcL : Landmark := ⟨9/20, 1/2, none, some (9/10)⟩

/-- Right closed wrist. -/
def jWcR : Landmark := ⟨11/20, 1/2, none, some (9/10)⟩

/-- A left wrist at the open position but with visibility only 0.2. -/
def jWiL : Landmark := ⟨0, 1/2, none, some (1/5)⟩

/-- Plank shoulders (y = 2/5, visibility 0.9). -/
def pShL : Landmark := ⟨2/5, 2/5, none, some (9/10)⟩

/-- Right plank shoulder. -/
def pShR : Landmark := ⟨3/5, 2/5, none, some (9/10)⟩

/-- Plank elbows (y = 3/5, below the shoulders in image coordinates). -/
def pElL : Landmark := ⟨2/5, 3/5, none, some (9/10)⟩

/-- Right plank elbow. -/
def pElR : Landmark := ⟨3/5, 3/5, none, some (9/10)⟩


/-- Squat frame, straight leg: hip 23 = vTop, knee 25 = vMid, ankle 27 =
vBot, right side not visible. -/
def squatFrameU : Frame := List.replicate 23 blankLm ++ [vTop, blankLm, vMid, blankLm, vBot]

/-- Squat frame, bent leg (right angle at the knee). -/
def squatFrameD : Frame := List.replicate 23 blankLm ++ [pSide, blankLm, vMid, blankLm, vBot]

/-- Squat frame with hip and knee coincident (both vMid) and everything
visible: the knee angle degenerates to NaN. -/
def squatFrameBad : Frame := List.replicate 23 blankLm ++ [vMid, blankLm, vMid, blankLm, vBot]

/-- Pushup frame with visible shoulders 11/12 and elbows 13/14 but no wrist
landmark at all (length 15, so indices 15 and 16 are out of range). -/
def pushupFrameNoWrist : Frame := List.replicate 11 blankLm ++ [vTop, vTop, vMid, vMid]

/-- Pushup frame whose left arm (shoulder vTop, elbow vMid, wrist vBot) is
straight and visible; the right side is present but invisible and index 16
is out of range, so only the left wrist is visible. -/
def pushupFrameU : Frame := List.replicate 11 blankLm ++ [vTop, blankLm, vMid, blankLm, vBot]

/-- Pushup frame whose left arm is bent at a right angle. -/
def pushupFrameD : Frame := List.replicate 11 blankLm ++ [pSide, blankLm, vMid, blankLm, vBot]

/-- Jumping-jack frame with open arms: arm ratio 1 / (1/5) = 5 > 1.4. -/
def jjFrameOpen : Frame :=
  List.replicate 11 blankLm ++ [jShL, jShR, blankLm, blankLm, jWoL, jWoR]

/-- Jumping-jack frame with closed arms: arm ratio (1/10) / (1/5) = 0.5. -/
def jjFrameClosed : Frame :=
  List.replicate 11 blankLm ++ [jShL, jShR, blankLm, blankLm, jWcL, jWcR]

/-- Jumping-jack frame whose left wrist is below the visibility threshold
but sits at the open position; the right wrist is visible. -/
def jjFrameInvis : Frame :=
  List.replicate 11 blankLm ++ [jShL, jShR, blankLm, blankLm, jWiL, jWoR]

/-- Plank frame with visible shoulders and elbows, elbows below shoulders. -/
def plankFrameGood : Frame := List.replicate 11 blankLm ++ [pShL, pShR, pElL, pElR]

/-- Source lines 294-310 as a pure function of the frame: the average arm
angle computed by PushupAnalyzer.analyze once the four gate landmarks are
present (the default for the dead fallback is the initial value 180). -/
noncomputable def pushupArmAngleOf (landmarks : Frame) : Option ℝ :=
  match landmarks[11]?, landmarks[12]?, landmarks[13]?, landmarks[14]? with
  | some lS, some rS, some lE, some rE => pushupArmAngle lS rS lE rE landmarks
  | _, _, _, _ => some 180

/-- Source lines 602-607 as a pure function of the frame: the arm ratio
computed by JumpingJackAnalyzer.analyze once the four gate landmarks are
present (0 for the dead fallback). -/
noncomputable def jjArmRatioOf (landmarks : Frame) : ℝ :=
  match landmarks[11]?, landmarks[12]?, landmarks[15]?, landmarks[16]? with
  | some lS, some rS, some lW, some rW =>
    calculateDistance lW rW / max (calculateDistance lS rS) (1/10)
  | _, _, _, _ => 0

/-- Source lines 609-612 as a pure function of the frame: whether either
wrist is raised at least 0.05 above its shoulder. -/
def jjArmsRaisedOf (landmarks : Frame) : Bool :=
  match landmarks[11]?, landmarks[12]?, landmarks[15]?, landmarks[16]? with
  | some lS, some rS, some lW, some rW =>
    decide (lW.y < lS.y - 1/20) || decide (rW.y < rS.y - 1/20)
  | _, _, _, _ => false

/-- Source lines 615 and 622-627 as a pure function of the frame: the raw
open/closed classification of an accepted frame. -/
noncomputable def jjRawStateOf (landmarks : Frame) : OC :=
  if (7 : ℝ)/5 < jjArmRatioOf landmarks then .opened else .closed

/-- The analyzer state after feeding the frames of the stream fr with
indices 0, ..., n-1 to a fresh SquatAnalyzer. -/
noncomputable def squatIter (fr : ℕ → Frame) : ℕ → SquatAnalyzer
  | 0 => SquatAnalyzer.init
  | n + 1 => ((squatIter fr n).analyze (fr n)).1

/-- The analyzer state after feeding the frames of the stream fr with
indices 0, ..., n-1 to a fresh PlankAnalyzer. -/
def plankIter (fr : ℕ → Frame) : ℕ → PlankAnalyzer
  | 0 => PlankAnalyzer.init
  | n + 1 => ((plankIter fr n).analyze (fr n)).1

/-- The analysis record returned for frame n (0-based) of the stream fr. -/
def plankResAt (fr : ℕ → Frame) (n : ℕ) : ExerciseAnalysis :=
  ((plankIter fr n).analyze (fr n)).2

/-- The analyzer state after feeding the frames of the stream fr with
indices 0, ..., n-1 to a fresh JumpingJackAnalyzer. -/
noncomputable def jjIter (fr : ℕ → Frame) : ℕ → JumpingJackAnalyzer
  | 0 => JumpingJackAnalyzer.init
  | n + 1 => ((jjIter fr n).analyze (fr n)).1

/-- The analysis record returned for frame n (0-based) of the stream fr. -/
noncomputable def jjResAt (fr : ℕ → Frame) (n : ℕ) : ExerciseAnalysis :=
  ((jjIter fr n).analyze (fr n)).2

/-- The squat input stream used for the cooldown counterexample: 4 straight
frames, 5 bent frames, 5 straight frames, then bent frames. -/
def squatSeq : ℕ → Frame := fun n =>
  if n < 4 then squatFrameU
  else if n < 9 then squatFrameD
  else if n < 14 then squatFrameU
  else squatFrameD

/-- The jumping-jack input stream realizing two full cycles with a cooldown
pause: 3 open, 13 closed (3 to close, 10 to exhaust the cooldown), 3 open,
then closed frames. -/
def jjSeq : ℕ → Frame := fun n =>
  if n < 3 then jjFrameOpen
  else if n < 16 then jjFrameClosed
  else if n < 19 then jjFrameOpen
  else jjFrameClosed

/-- The result sequence of a SquatAnalyzer run over a list of frames. -/
noncomputable def squatResults (s : SquatAnalyzer) (fs : List Frame) : List ExerciseAnalysis :=
  (fs.foldl (fun (p : SquatAnalyzer × List ExerciseAnalysis) f =>
    ((p.1.analyze f).1, p.2 ++ [(p.1.analyze f).2])) (s, [])).2

/-- The result sequence of a PushupAnalyzer run over a list of frames. -/
noncomputable def pushupResults (s : PushupAnalyzer) (fs : List Frame) : List ExerciseAnalysis :=
  (fs.foldl (fun (p : PushupAnalyzer × List ExerciseAnalysis) f =>
    ((p.1.analyze f).1, p.2 ++ [(p.1.analyze f).2])) (s, [])).2

/-- The result sequence of a PlankAnalyzer run over a list of frames. -/
def plankResults (s : PlankAnalyzer) (fs : List Frame) : List ExerciseAnalysis :=
  (fs.foldl (fun (p : PlankAnalyzer × List ExerciseAnalysis) f =>
    ((p.1.analyze f).1, p.2 ++ [(p.1.analyze f).2])) (s, [])).2

/-- The result sequence of a JumpingJackAnalyzer run over a list of frames. -/
noncomputable def jjResults (s : JumpingJackAnalyzer) (fs : List Frame) : List ExerciseAnalysis :=
  (fs.foldl (fun (p : JumpingJackAnalyzer × List ExerciseAnalysis) f =>
    ((p.1.analyze f).1, p.2 ++ [(p.1.analyze f).2])) (s, [])).2


theorem visOk_vTop : visOk (some vTop) = true := by simp [visOk, vTop]; norm_num

theorem visOk_vMid : visOk (some vMid) = true := by simp [visOk, vMid]; norm_num

theorem visOk_vBot : visOk (some vBot) = true := by simp [visOk, vBot]; norm_num

theorem visOk_pSide : visOk (some pSide) = true := by simp [visOk, pSide]; norm_num

theorem visOk_jShL : visOk (some jShL) = true := by simp [visOk, jShL]; norm_num

theorem visOk_jShR : visOk (some jShR) = true := by simp [visOk, jShR]; norm_num

theorem visOk_jWoL : visOk (some jWoL) = true := by simp [visOk, jWoL]; norm_num

theorem visOk_jWoR : visOk (some jWoR) = true := by simp [visOk, jWoR]; norm_num

theorem visOk_jWcL : visOk (some jWcL) = true := by simp [visOk, jWcL]; norm_num

theorem visOk_jWcR : visOk (some jWcR) = true := by simp [visOk, jWcR]; norm_num

theorem visOk_jWiL : visOk (some jWiL) = false := by simp [visOk, jWiL]; norm_num

theorem visOk_pShL : visOk (some pShL) = true := by simp [visOk, pShL]; norm_num

theorem visOk_pShR : visOk (some pShR) = true := by simp [visOk, pShR]; norm_num

theorem visOk_pElL : visOk (some pElL) = true := by simp [visOk, pElL]; norm_num

theorem visOk_pElR : visOk (some pElR) = true := by simp [visOk, pElR]; norm_num

theorem visOk_blank : visOk (some blankLm) = false := by simp [visOk, blankLm]

theorem visOk_none : visOk none = false := by simp [visOk]

theorem visOf_vTop : visOf (some vTop) = 9/10 := by simp [visOf, vTop]

theorem visOf_vMid : visOf (some vMid) = 9/10 := by simp [visOf, vMid]

theorem visOf_vBot : visOf (some vBot) = 9/10 := by simp [visOf, vBot]

theorem visOf_pSide : visOf (some pSide) = 9/10 := by simp [visOf, pSide]

theorem visOf_blank : visOf (some blankLm) = 0 := by simp [visOf, blankLm]

theorem visOf_none : visOf none = 0 := by simp [visOf]

theorem sqrt25 : Real.sqrt 25 = 5 := by
  rw [show (25 : ℝ) = 5^2 by norm_num, Real.sqrt_sq (by norm_num)]

theorem sqrt100 : Real.sqrt 100 = 10 := by
  rw [show (100 : ℝ) = 10^2 by norm_num, Real.sqrt_sq (by norm_num)]

/-- The straight vertical chain has angle 180 degrees. -/
theorem angle_straight : calculateAngle vTop vMid vBot = some 180 := by
  unfold calculateAngle vTop vMid vBot
  norm_num [sqrt25]
  field_simp

/-- The right-angle configuration has angle 90 degrees. -/
theorem angle_perp : calculateAngle pSide vMid vBot = some 90 := by
  unfold calculateAngle pSide vMid vBot
  norm_num [sqrt25]
  field_simp
  ring

/-- With the first two points coincident the vector ba is zero, the length
product is zero, and calculateAngle yields NaN (none), not 180. -/
theorem angle_degenerate : calculateAngle vMid vMid vBot = none := by
  unfold calculateAngle vMid vBot
  norm_num

/-- The shoulder distance of the jumping-jack frames. -/
theorem dist_shoulders : calculateDistance jShL jShR = 1/5 := by
  unfold calculateDistance jShL jShR
  norm_num [sqrt25]

/-- The wrist distance of the open jumping-jack frame. -/
theorem dist_open : calculateDistance jWoL jWoR = 1 := by
  unfold calculateDistance jWoL jWoR
  norm_num

/-- The wrist distance of the closed jumping-jack frame. -/
theorem dist_closed : calculateDistance jWcL jWcR = 1/10 := by
  unfold calculateDistance jWcL jWcR
  norm_num [sqrt100]

/-- The wrist distance from the invisible left wrist to the open right one. -/
theorem dist_invis : calculateDistance jWiL jWoR = 1 := by
  unfold calculateDistance jWiL jWoR
  norm_num

/-- An option whose isNone is false holds a value. -/
theorem isNone_false_exists {o : Option Landmark} (h : o.isNone = false) :
    ∃ a, o = some a := by
  cases o with
  | none => simp at h
  | some a => exact ⟨a, rfl⟩

/-- On a frame that passes the pushup gate, analyze is the core state
machine fed with the average arm angle of the frame. -/
theorem pushup_accept (s : PushupAnalyzer) (lm : Frame) (h : pushupRejected lm = false) :
    s.analyze lm = s.analyzeCore (pushupArmAngleOf lm) := by
  have h' := h
  simp only [pushupRejected, Bool.or_eq_false_iff] at h'
  obtain ⟨⟨⟨⟨hg, h11⟩, h12⟩, h13⟩, h14⟩ := h'
  obtain ⟨lS, e11⟩ := isNone_false_exists h11
  obtain ⟨rS, e12⟩ := isNone_false_exists h12
  obtain ⟨lE, e13⟩ := isNone_false_exists h13
  obtain ⟨rE, e14⟩ := isNone_false_exists h14
  unfold PushupAnalyzer.analyze pushupArmAngleOf
  rw [h, e11, e12, e13, e14]
  simp

/-- On a frame that passes the jumping-jack gate, analyze is the core state
machine fed with the arm ratio and arms-raised flag of the frame. -/
theorem jj_accept (s : JumpingJackAnalyzer) (lm : Frame) (h : jjRejected lm = false) :
    s.analyze lm = s.analyzeCore (jjArmRatioOf lm) (jjArmsRaisedOf lm) := by
  have h' := h
  simp only [jjRejected, Bool.or_eq_false_iff] at h'
  obtain ⟨⟨⟨⟨hg, h11⟩, h12⟩, h15⟩, h16⟩ := h'
  obtain ⟨lS, e11⟩ := isNone_false_exists h11
  obtain ⟨rS, e12⟩ := isNone_false_exists h12
  obtain ⟨lW, e15⟩ := isNone_false_exists h15
  obtain ⟨rW, e16⟩ := isNone_false_exists h16
  unfold JumpingJackAnalyzer.analyze jjArmRatioOf jjArmsRaisedOf
  rw [h, e11, e12, e15, e16]
  simp

/-! ## Frame lookup lemmas -/

theorem lk_sFU_23 : squatFrameU[23]? = some vTop := by
  simp [squatFrameU, List.getElem?_append, List.getElem?_replicate]

theorem lk_sFU_24 : squatFrameU[24]? = some blankLm := by
  simp [squatFrameU, List.getElem?_append, List.getElem?_replicate]

theorem lk_sFU_25 : squatFrameU[25]? = some vMid := by
  simp [squatFrameU, List.getElem?_append, List.getElem?_replicate]

theorem lk_sFU_26 : squatFrameU[26]? = some blankLm := by
  simp [squatFrameU, List.getElem?_append, List.getElem?_replicate]

theorem lk_sFU_27 : squatFrameU[27]? = some vBot := by
  simp [squatFrameU, List.getElem?_append, List.getElem?_replicate]

theorem lk_sFU_28 : squatFrameU[28]? = none := by
  simp [squatFrameU]

theorem lk_sFD_23 : squatFrameD[23]? = some pSide := by
  simp [squatFrameD, List.getElem?_append, List.getElem?_replicate]

theorem lk_sFD_24 : squatFrameD[24]? = some blankLm := by
  simp [squatFrameD, List.getElem?_append, List.getElem?_replicate]

theorem lk_sFD_25 : squatFrameD[25]? = some vMid := by
  simp [squatFrameD, List.getElem?_append, List.getElem?_replicate]

theorem lk_sFD_26 : squatFrameD[26]? = some blankLm := by
  simp [squatFrameD, List.getElem?_append, List.getElem?_replicate]

theorem lk_sFD_27 : squatFrameD[27]? = some vBot := by
  simp [squatFrameD, List.getElem?_append, List.getElem?_replicate]

theorem lk_sFD_28 : squatFrameD[28]? = none := by
  simp [squatFrameD]

theorem lk_sFB_23 : squatFrameBad[23]? = some vMid := by
  simp [squatFrameBad, List.getElem?_append, List.getElem?_replicate]

theorem lk_sFB_24 : squatFrameBad[24]? = some blankLm := by
  simp [squatFrameBad, List.getElem?_append, List.getElem?_replicate]

theorem lk_sFB_25 : squatFrameBad[25]? = some vMid := by
  simp [squatFrameBad, List.getElem?_append, List.getElem?_replicate]

theorem lk_sFB_26 : squatFrameBad[26]? = some blankLm := by
  simp [squatFrameBad, List.getElem?_append, List.getElem?_replicate]

theorem lk_sFB_27 : squatFrameBad[27]? = some vBot := by
  simp [squatFrameBad, List.getElem?_append, List.getElem?_replicate]

theorem lk_sFB_28 : squatFrameBad[28]? = none := by
  simp [squatFrameBad]

theorem lk_pFN_11 : pushupFrameNoWrist[11]? = some vTop := by
  simp [pushupFrameNoWrist, List.getElem?_append, List.getElem?_replicate]

theorem lk_pFN_12 : pushupFrameNoWrist[12]? = some vTop := by
  simp [pushupFrameNoWrist, List.getElem?_append, List.getElem?_replicate]

theorem lk_pFN_13 : pushupFrameNoWrist[13]? = some vMid := by
  simp [pushupFrameNoWrist, List.getElem?_append, List.getElem?_replicate]

theorem lk_pFN_14 : pushupFrameNoWrist[14]? = some vMid := by
  simp [pushupFrameNoWrist, List.getElem?_append, List.getElem?_replicate]

theorem lk_pFN_15 : pushupFrameNoWrist[15]? = none := by
  simp [pushupFrameNoWrist]

theorem lk_pFN_16 : pushupFrameNoWrist[16]? = none := by
  simp [pushupFrameNoWrist]

theorem lk_pFU_11 : pushupFrameU[11]? = some vTop := by
  simp [pushupFrameU, List.getElem?_append, List.getElem?_replicate]

theorem lk_pFU_12 : pushupFrameU[12]? = some blankLm := by
  simp [pushupFrameU, List.getElem?_append, List.getElem?_replicate]

theorem lk_pFU_13 : pushupFrameU[13]? = some vMid := by
  simp [pushupFrameU, List.getElem?_append, List.getElem?_replicate]

theorem lk_pFU_14 : pushupFrameU[14]? = some blankLm := by
  simp [pushupFrameU, List.getElem?_append, List.getElem?_replicate]

theorem lk_pFU_15 : pushupFrameU[15]? = some vBot := by
  simp [pushupFrameU, List.getElem?_append, List.getElem?_replicate]

theorem lk_pFU_16 : pushupFrameU[16]? = none := by
  simp [pushupFrameU]

theorem lk_pFD_11 : pushupFrameD[11]? = some pSide := by
  simp [pushupFrameD, List.getElem?_append, List.getElem?_replicate]

theorem lk_pFD_12 : pushupFrameD[12]? = some blankLm := by
  simp [pushupFrameD, List.getElem?_append, List.getElem?_replicate]

theorem lk_pFD_13 : pushupFrameD[13]? = some vMid := by
  simp [pushupFrameD, List.getElem?_append, List.getElem?_replicate]

theorem lk_pFD_14 : pushupFrameD[14]? = some blankLm := by
  simp [pushupFrameD, List.getElem?_append, List.getElem?_replicate]

theorem lk_pFD_15 : pushupFrameD[15]? = some vBot := by
  simp [pushupFrameD, List.getElem?_append, List.getElem?_replicate]

theorem lk_pFD_16 : pushupFrameD[16]? = none := by
  simp [pushupFrameD]

theorem lk_jFO_11 : jjFrameOpen[11]? = some jShL := by
  simp [jjFrameOpen, List.getElem?_append, List.getElem?_replicate]

theorem lk_jFO_12 : jjFrameOpen[12]? = some jShR := by
  simp [jjFrameOpen, List.getElem?_append, List.getElem?_replicate]

theorem lk_jFO_15 : jjFrameOpen[15]? = some jWoL := by
  simp [jjFrameOpen, List.getElem?_append, List.getElem?_replicate]

theorem lk_jFO_16 : jjFrameOpen[16]? = some jWoR := by
  simp [jjFrameOpen, List.getElem?_append, List.getElem?_replicate]

theorem lk_jFC_11 : jjFrameClosed[11]? = some jShL := by
  simp [jjFrameClosed, List.getElem?_append, List.getElem?_replicate]

theorem lk_jFC_12 : jjFrameClosed[12]? = some jShR := by
  simp [jjFrameClosed, List.getElem?_append, List.getElem?_replicate]

theorem lk_jFC_15 : jjFrameClosed[15]? = some jWcL := by
  simp [jjFrameClosed, List.getElem?_append, List.getElem?_replicate]

theorem lk_jFC_16 : jjFrameClosed[16]? = some jWcR := by
  simp [jjFrameClosed, List.getElem?_append, List.getElem?_replicate]

theorem lk_jFI_11 : jjFrameInvis[11]? = some jShL := by
  simp [jjFrameInvis, List.getElem?_append, List.getElem?_replicate]

theorem lk_jFI_12 : jjFrameInvis[12]? = some jShR := by
  simp [jjFrameInvis, List.getElem?_append, List.getElem?_replicate]

theorem lk_jFI_15 : jjFrameInvis[15]? = some jWiL := by
  simp [jjFrameInvis, List.getElem?_append, List.getElem?_replicate]

theorem lk_jFI_16 : jjFrameInvis[16]? = some jWoR := by
  simp [jjFrameInvis, List.getElem?_append, List.getElem?_replicate]

theorem lk_pFG_11 : plankFrameGood[11]? = some pShL := by
  simp [plankFrameGood, List.getElem?_append, List.getElem?_replicate]

theorem lk_pFG_12 : plankFrameGood[12]? = some pShR := by
  simp [plankFrameGood, List.getElem?_append, List.getElem?_replicate]

theorem lk_pFG_13 : plankFrameGood[13]? = some pElL := by
  simp [plankFrameGood, List.getElem?_append, List.getElem?_replicate]

theorem lk_pFG_14 : plankFrameGood[14]? = some pElR := by
  simp [plankFrameGood, List.getElem?_append, List.getElem?_replicate]

theorem gate_sFU_L : squatLeftVisible squatFrameU = true := by
  simp [squatLeftVisible, lk_sFU_23, lk_sFU_25, lk_sFU_27, visOk_vTop, visOk_vMid, visOk_vBot]

theorem gate_sFU_R : squatRightVisible squatFrameU = false := by
  simp [squatRightVisible, lk_sFU_24, lk_sFU_26, lk_sFU_28, visOk_blank, visOk_none]

theorem gate_sFD_L : squatLeftVisible squatFrameD = true := by
  simp [squatLeftVisible, lk_sFD_23, lk_sFD_25, lk_sFD_27, visOk_pSide, visOk_vMid, visOk_vBot]

theorem gate_sFD_R : squatRightVisible squatFrameD = false := by
  simp [squatRightVisible, lk_sFD_24, lk_sFD_26, lk_sFD_28, visOk_blank, visOk_none]

theorem gate_sFB_L : squatLeftVisible squatFrameBad = true := by
  simp [squatLeftVisible, lk_sFB_23, lk_sFB_25, lk_sFB_27, visOk_vMid, visOk_vBot]

theorem gate_sFB_R : squatRightVisible squatFrameBad = false := by
  simp [squatRightVisible, lk_sFB_24, lk_sFB_26, lk_sFB_28, visOk_blank, visOk_none]

theorem kneeAngle_U : squatKneeAngle squatFrameU = some 180 := by
  simp only [squatKneeAngle, lk_sFU_23, lk_sFU_24, lk_sFU_25, lk_sFU_26, lk_sFU_27, lk_sFU_28,
             gate_sFU_L, visOf_vTop, visOf_vMid, visOf_vBot, visOf_blank, visOf_none]
  norm_num [angle_straight]

theorem kneeAngle_D : squatKneeAngle squatFrameD = some 90 := by
  simp only [squatKneeAngle, lk_sFD_23, lk_sFD_24, lk_sFD_25, lk_sFD_26, lk_sFD_27, lk_sFD_28,
             gate_sFD_L, visOf_pSide, visOf_vMid, visOf_vBot, visOf_blank, visOf_none]
  norm_num [angle_perp]

theorem kneeAngle_Bad : squatKneeAngle squatFrameBad = none := by
  simp only [squatKneeAngle, lk_sFB_23, lk_sFB_24, lk_sFB_25, lk_sFB_26, lk_sFB_27, lk_sFB_28,
             gate_sFB_L, visOf_vMid, visOf_vBot, visOf_blank, visOf_none]
  norm_num [angle_degenerate]

theorem squat_step_U (s : SquatAnalyzer) :
    s.analyze squatFrameU = s.analyzeCore (some 180) := by
  simp only [SquatAnalyzer.analyze, gate_sFU_L, gate_sFU_R, kneeAngle_U, Bool.not_true,
             Bool.false_and]
  simp

theorem squat_step_D (s : SquatAnalyzer) :
    s.analyze squatFrameD = s.analyzeCore (some 90) := by
  simp only [SquatAnalyzer.analyze, gate_sFD_L, gate_sFD_R, kneeAngle_D, Bool.not_true,
             Bool.false_and]
  simp

theorem squat_step_Bad (s : SquatAnalyzer) :
    s.analyze squatFrameBad = s.analyzeCore none := by
  simp only [SquatAnalyzer.analyze, gate_sFB_L, gate_sFB_R, kneeAngle_Bad, Bool.not_true,
             Bool.false_and]
  simp

theorem gate_pFN : pushupRejected pushupFrameNoWrist = false := by
  simp [pushupRejected, pushupLeftVisible, pushupRightVisible, lk_pFN_11, lk_pFN_12,
        lk_pFN_13, lk_pFN_14, visOk_vTop, visOk_vMid]

theorem armAngle_pFN : pushupArmAngleOf pushupFrameNoWrist = some 180 := by
  simp only [pushupArmAngleOf, lk_pFN_11, lk_pFN_12, lk_pFN_13, lk_pFN_14]
  simp [pushupArmAngle, lk_pFN_15, lk_pFN_16, visOk_none]

theorem gate_pFU : pushupRejected pushupFrameU = false := by
  simp [pushupRejected, pushupLeftVisible, pushupRightVisible, lk_pFU_11, lk_pFU_12,
        lk_pFU_13, lk_pFU_14, visOk_vTop, visOk_vMid, visOk_blank]

theorem armAngle_pFU : pushupArmAngleOf pushupFrameU = some 180 := by
  simp only [pushupArmAngleOf, lk_pFU_11, lk_pFU_12, lk_pFU_13, lk_pFU_14]
  simp [pushupArmAngle, lk_pFU_15, lk_pFU_16, visOk_vBot, visOk_none, angle_straight]

theorem gate_pFD : pushupRejected pushupFrameD = false := by
  simp [pushupRejected, pushupLeftVisible, pushupRightVisible, lk_pFD_11, lk_pFD_12,
        lk_pFD_13, lk_pFD_14, visOk_pSide, visOk_vMid, visOk_blank]

theorem armAngle_pFD : pushupArmAngleOf pushupFrameD = some 90 := by
  simp only [pushupArmAngleOf, lk_pFD_11, lk_pFD_12, lk_pFD_13, lk_pFD_14]
  simp [pushupArmAngle, lk_pFD_15, lk_pFD_16, visOk_vBot, visOk_none, angle_perp]

theorem gate_jFO : jjRejected jjFrameOpen = false := by
  simp [jjRejected, lk_jFO_11, lk_jFO_12, lk_jFO_15, lk_jFO_16,
        visOk_jShL, visOk_jShR, visOk_jWoL, visOk_jWoR]

theorem ratio_jFO : jjArmRatioOf jjFrameOpen = 5 := by
  simp only [jjArmRatioOf, lk_jFO_11, lk_jFO_12, lk_jFO_15, lk_jFO_16]
  rw [dist_open, dist_shoulders]
  rw [max_eq_left (by norm_num)]
  norm_num

theorem raised_jFO : jjArmsRaisedOf jjFrameOpen = false := by
  simp only [jjArmsRaisedOf, lk_jFO_11, lk_jFO_12, lk_jFO_15, lk_jFO_16]
  norm_num [jShL, jShR, jWoL, jWoR]

theorem gate_jFC : jjRejected jjFrameClosed = false := by
  simp [jjRejected, lk_jFC_11, lk_jFC_12, lk_jFC_15, lk_jFC_16,
        visOk_jShL, visOk_jShR, visOk_jWcL, visOk_jWcR]

theorem ratio_jFC : jjArmRatioOf jjFrameClosed = 1/2 := by
  simp only [jjArmRatioOf, lk_jFC_11, lk_jFC_12, lk_jFC_15, lk_jFC_16]
  rw [dist_closed, dist_shoulders]
  rw [max_eq_left (by norm_num)]
  norm_num

theorem raised_jFC : jjArmsRaisedOf jjFrameClosed = false := by
  simp only [jjArmsRaisedOf, lk_jFC_11, lk_jFC_12, lk_jFC_15, lk_jFC_16]
  norm_num [jShL, jShR, jWcL, jWcR]

theorem gate_jFI : jjRejected jjFrameInvis = false := by
  simp [jjRejected, lk_jFI_11, lk_jFI_12, lk_jFI_15, lk_jFI_16,
        visOk_jShL, visOk_jShR, visOk_jWiL, visOk_jWoR]

theorem ratio_jFI : jjArmRatioOf jjFrameInvis = 5 := by
  simp only [jjArmRatioOf, lk_jFI_11, lk_jFI_12, lk_jFI_15, lk_jFI_16]
  rw [dist_invis, dist_shoulders]
  rw [max_eq_left (by norm_num)]
  norm_num

theorem gate_pFG : plankRejected plankFrameGood = false := by
  simp [plankRejected, lk_pFG_11, lk_pFG_12, lk_pFG_13, lk_pFG_14,
        visOk_pShL, visOk_pShR, visOk_pElL, visOk_pElR]

theorem form_pFG : plankFormOk plankFrameGood = true := by
  simp only [plankFormOk, lk_pFG_11, lk_pFG_12, lk_pFG_13, lk_pFG_14]
  norm_num [pShL, pShR, pElL, pElR]

theorem jj_step_open (s : JumpingJackAnalyzer) :
    s.analyze jjFrameOpen = s.analyzeCore 5 false := by
  rw [jj_accept s _ gate_jFO, ratio_jFO, raised_jFO]

theorem jj_step_closed (s : JumpingJackAnalyzer) :
    s.analyze jjFrameClosed = s.analyzeCore (1/2) false := by
  rw [jj_accept s _ gate_jFC, ratio_jFC, raised_jFC]

theorem pushup_step_noWrist (s : PushupAnalyzer) :
    s.analyze pushupFrameNoWrist = s.analyzeCore (some 180) := by
  rw [pushup_accept s _ gate_pFN, armAngle_pFN]

theorem pushup_step_U (s : PushupAnalyzer) :
    s.analyze pushupFrameU = s.analyzeCore (some 180) := by
  rw [pushup_accept s _ gate_pFU, armAngle_pFU]

theorem pushup_step_D (s : PushupAnalyzer) :
    s.analyze pushupFrameD = s.analyzeCore (some 90) := by
  rw [pushup_accept s _ gate_pFD, armAngle_pFD]

/-! ## Claims -/

/-- C3: calculateAngle is the clamped-acos-in-degrees formula, and the
claim says a degenerate (zero-length) vector yields 180 degrees. In the
code the division 0/0 yields NaN and no exception is ever thrown, so the
fallback 180 of the catch block is unreachable: at the concrete degenerate
input (hip and knee both at vMid) the function returns NaN (none), not
180. -/
theorem C3_degenerate_angle_is_nan :
    calculateAngle vMid vMid vBot = none ∧
    (∀ q : ℝ, calculateAngle vMid vMid vBot ≠ some q) := by
  refine ⟨angle_degenerate, ?_⟩
  intro q h
  rw [angle_degenerate] at h
  exact Option.noConfusion h

/-- C1: the claim says every analyze() result has score in [0, 100] and in
particular never NaN, even for coincident joints. Evaluating the squat
tracker produced by createAnalyzer on a frame whose (fully visible) hip and
knee coincide: the knee angle is NaN and the NaN propagates into the
returned score (none), so the property fails on the code. -/
theorem C1_nan_score_eval :
    (Tracker.analyze (createAnalyzer "squat") squatFrameBad).2.score = none ∧
    (∀ q : ℚ, ¬((Tracker.analyze (createAnalyzer "squat") squatFrameBad).2.score = some q ∧
      0 ≤ q ∧ q ≤ 100)) := by
  have hc : createAnalyzer "squat" = .squat SquatAnalyzer.init := by
    simp [createAnalyzer]
  have he : (Tracker.analyze (createAnalyzer "squat") squatFrameBad).2.score = none := by
    rw [hc]
    show (SquatAnalyzer.init.analyze squatFrameBad).2.score = none
    rw [squat_step_Bad]
    norm_num [SquatAnalyzer.analyzeCore, SquatAnalyzer.detectSquatState,
              SquatAnalyzer.updateCount, jsLtB, jsGtB, jsMax, jsMin, jsRound]
  refine ⟨he, ?_⟩
  intro q hq
  rw [he] at hq
  exact Option.noConfusion hq.1

/-- Neither updatePushupCount branch touches the consecutive-frame
counters. -/
theorem pushup_update_consec (s : PushupAnalyzer) (cur : UD) :
    (s.updatePushupCount cur).1.consecutiveUpFrames = s.consecutiveUpFrames := by
  simp only [PushupAnalyzer.updatePushupCount]
  split_ifs <;> rfl

/-- C2 counterexample: a fresh pushup tracker fed a frame whose shoulders
and elbows are visible but which has no visible wrist does not reject the
frame: it returns isCorrect = true with score 100 (not the neutral score-0
result) and mutates its state. -/
theorem C2_cex :
    pushupLeftVisible pushupFrameNoWrist = true ∧
    pushupRightVisible pushupFrameNoWrist = true ∧
    visOk pushupFrameNoWrist[15]? = false ∧
    visOk pushupFrameNoWrist[16]? = false ∧
    (PushupAnalyzer.init.analyze pushupFrameNoWrist).2.score = some 100 ∧
    (PushupAnalyzer.init.analyze pushupFrameNoWrist).2.isCorrect = true ∧
    (PushupAnalyzer.init.analyze pushupFrameNoWrist).1 ≠ PushupAnalyzer.init := by
  have hL : pushupLeftVisible pushupFrameNoWrist = true := by
    simp [pushupLeftVisible, lk_pFN_11, lk_pFN_13, visOk_vTop, visOk_vMid]
  have hR : pushupRightVisible pushupFrameNoWrist = true := by
    simp [pushupRightVisible, lk_pFN_12, lk_pFN_14, visOk_vTop, visOk_vMid]
  have he : PushupAnalyzer.init.analyze pushupFrameNoWrist =
      (⟨0, .up, false, 1, 0, 1, 0⟩,
       ⟨true, some 100, "已上升，请下降", some 0, none⟩) := by
    rw [pushup_step_noWrist]
    norm_num [PushupAnalyzer.analyzeCore, PushupAnalyzer.init, PushupAnalyzer.detectPushupState,
              PushupAnalyzer.updatePushupCount, jsLtB, jsGtB, jsMax, jsMin, jsRound]
    simp
  refine ⟨hL, hR, by rw [lk_pFN_15]; exact visOk_none, by rw [lk_pFN_16]; exact visOk_none,
    by rw [he], by rw [he], by rw [he]; simp [PushupAnalyzer.init]⟩

/-- C2 amended: with visible shoulders and elbows but no visible wrist the
pushup tracker is not rejected — the feature angle defaults to 180 and the
debounce state machine advances (the consecutive-up counter grows); with
exactly one visible wrist the feature angle is that arm's
shoulder-elbow-wrist angle. -/
theorem C2_pushup_wrist_handling :
    (∀ (lS rS lE rE : Landmark) (lm : Frame),
       visOk lm[15]? = false → visOk lm[16]? = false →
       pushupArmAngle lS rS lE rE lm = some 180) ∧
    (∀ (s : PushupAnalyzer) (lm : Frame), pushupRejected lm = false →
       visOk lm[15]? = false → visOk lm[16]? = false →
       (s.analyze lm).1.consecutiveUpFrames = s.consecutiveUpFrames + 1) ∧
    (∀ (lS rS lE rE w : Landmark) (lm : Frame),
       lm[15]? = some w → visOk lm[15]? = true → visOk lm[16]? = false →
       pushupArmAngle lS rS lE rE lm = calculateAngle lS lE w) ∧
    (∀ (lS rS lE rE w : Landmark) (lm : Frame),
       visOk lm[15]? = false → lm[16]? = some w → visOk lm[16]? = true →
       pushupArmAngle lS rS lE rE lm = calculateAngle rS rE w) := by
  have hNo : ∀ (lS rS lE rE : Landmark) (lm : Frame),
      visOk lm[15]? = false → visOk lm[16]? = false →
      pushupArmAngle lS rS lE rE lm = some 180 := by
    intro lS rS lE rE lm h15 h16
    unfold pushupArmAngle
    rw [h15, h16]
    simp
  refine ⟨hNo, ?_, ?_, ?_⟩
  · intro s lm hacc h15 h16
    rw [pushup_accept s lm hacc]
    have : pushupArmAngleOf lm = some 180 := by
      unfold pushupArmAngleOf
      rcases h11 : lm[11]? with _ | lS
      · simp
      rcases h12 : lm[12]? with _ | rS
      · simp
      rcases h13 : lm[13]? with _ | lE
      · simp
      rcases h14 : lm[14]? with _ | rE
      · simp
      exact hNo lS rS lE rE lm h15 h16
    rw [this]
    unfold PushupAnalyzer.analyzeCore PushupAnalyzer.detectPushupState
    norm_num [jsLtB, jsGtB, pushup_update_consec]
  · intro lS rS lE rE w lm e15 h15 h16
    unfold pushupArmAngle
    rw [h15, h16, e15]
    rcases hA : calculateAngle lS lE w with _ | v <;> simp [hA]
  · intro lS rS lE rE w lm h15 e16 h16
    unfold pushupArmAngle
    rw [h15, h16, e16]
    rcases hA : calculateAngle rS rE w with _ | v <;> simp [hA]

/-- C2 witness: the amended statement evaluated at the concrete frames
pushupFrameNoWrist (no visible wrist) and pushupFrameU (left wrist only). -/
theorem C2_witness :
    pushupArmAngle vTop vTop vMid vMid pushupFrameNoWrist = some 180 ∧
    (PushupAnalyzer.init.analyze pushupFrameNoWrist).1.consecutiveUpFrames = 1 ∧
    pushupArmAngle vTop blankLm vMid blankLm pushupFrameU = calculateAngle vTop vMid vBot := by
  refine ⟨C2_pushup_wrist_handling.1 vTop vTop vMid vMid pushupFrameNoWrist
      (by rw [lk_pFN_15]; exact visOk_none) (by rw [lk_pFN_16]; exact visOk_none), ?_, ?_⟩
  · have := C2_pushup_wrist_handling.2.1 PushupAnalyzer.init pushupFrameNoWrist gate_pFN
      (by rw [lk_pFN_15]; exact visOk_none) (by rw [lk_pFN_16]; exact visOk_none)
    rw [this]
    rfl
  · exact C2_pushup_wrist_handling.2.2.1 vTop blankLm vMid blankLm vBot pushupFrameU
      lk_pFU_15 (by rw [lk_pFU_15]; exact visOk_vBot) (by rw [lk_pFU_16]; exact visOk_none)

/-- A landmark that passed the visibility test is present. -/
theorem visOk_isSome {o : Option Landmark} (h : visOk o = true) : o.isSome = true := by
  cases o with
  | none => simp [visOk] at h
  | some l => simp

/-- An option that isSome is not isNone. -/
theorem isSome_isNone_false {o : Option Landmark} (h : o.isSome = true) : o.isNone = false := by
  cases o with
  | none => simp at h
  | some l => simp

/-- updateJumpingJackCount never touches lastArmRatio. -/
theorem jj_update_lastArmRatio (s : JumpingJackAnalyzer) (p c : OC) :
    (s.updateJumpingJackCount p c).1.lastArmRatio = s.lastArmRatio := by
  simp only [JumpingJackAnalyzer.updateJumpingJackCount]
  split_ifs <;> rfl

/-- Every branch of the jumping-jack core records the arm ratio of the
current frame in lastArmRatio. -/
theorem jj_core_lastArmRatio (s : JumpingJackAnalyzer) (r : ℝ) (a : Bool) :
    (s.analyzeCore r a).1.lastArmRatio = r := by
  simp only [JumpingJackAnalyzer.analyzeCore]
  simp [jj_update_lastArmRatio, apply_ite JumpingJackAnalyzer.lastArmRatio]

/-- C10: the jumping-jack visibility gate passes iff both shoulders are
visible, at least one wrist is visible and both wrist landmarks are present;
on every accepted frame the arm ratio stored in lastArmRatio is the raw
wrist-to-wrist distance (including a wrist below the visibility threshold)
divided by the shoulder distance floored at 0.1; rejected frames get the
neutral result with no state change. -/
theorem C10_jj_gate_and_raw_wrists :
    (∀ lm : Frame, jjRejected lm = false ↔
       (visOk lm[11]? = true ∧ visOk lm[12]? = true ∧
        (visOk lm[15]? = true ∨ visOk lm[16]? = true) ∧
        lm[15]?.isSome = true ∧ lm[16]?.isSome = true)) ∧
    (∀ (s : JumpingJackAnalyzer) (lm : Frame) (lS rS lW rW : Landmark),
       jjRejected lm = false →
       lm[11]? = some lS → lm[12]? = some rS → lm[15]? = some lW → lm[16]? = some rW →
       (s.analyze lm).1.lastArmRatio =
         calculateDistance lW rW / max (calculateDistance lS rS) (1/10)) ∧
    (∀ (s : JumpingJackAnalyzer) (lm : Frame), jjRejected lm = true →
       s.analyze lm =
         (s, ⟨false, some 0, "请确保上半身在摄像头范围内", some s.jumpCount, none⟩)) := by
  refine ⟨?_, ?_, ?_⟩
  · intro lm
    constructor
    · intro h
      simp only [jjRejected, Bool.or_eq_false_iff] at h
      obtain ⟨⟨⟨⟨⟨hsv, hwv⟩, h11⟩, h12⟩, h15⟩, h16⟩ := h
      simp only [Bool.not_eq_false', Bool.and_eq_true] at hsv
      simp only [Bool.not_eq_false', Bool.or_eq_true] at hwv
      refine ⟨hsv.1, hsv.2, hwv, ?_, ?_⟩
      · obtain ⟨a, ha⟩ := isNone_false_exists h15
        simp [ha]
      · obtain ⟨a, ha⟩ := isNone_false_exists h16
        simp [ha]
    · intro ⟨h11, h12, hw, h15, h16⟩
      simp only [jjRejected, Bool.or_eq_false_iff]
      refine ⟨⟨⟨⟨⟨?_, ?_⟩, ?_⟩, ?_⟩, ?_⟩, ?_⟩
      · simp [h11, h12]
      · rcases hw with h | h <;> simp [h]
      · exact isSome_isNone_false (visOk_isSome h11)
      · exact isSome_isNone_false (visOk_isSome h12)
      · exact isSome_isNone_false h15
      · exact isSome_isNone_false h16
  · intro s lm lS rS lW rW hacc e11 e12 e15 e16
    rw [jj_accept s lm hacc, jj_core_lastArmRatio]
    unfold jjArmRatioOf
    rw [e11, e12, e15, e16]
  · intro s lm h
    unfold JumpingJackAnalyzer.analyze
    rw [h]
    simp

/-- C10 witness: the frame whose left wrist is at the open position but
invisible is accepted, and the recorded arm ratio uses the raw coordinates
of that invisible wrist: distance 1 over shoulder distance 1/5, ratio 5. -/
theorem C10_witness :
    jjRejected jjFrameInvis = false ∧
    (JumpingJackAnalyzer.init.analyze jjFrameInvis).1.lastArmRatio =
      calculateDistance jWiL jWoR / max (calculateDistance jShL jShR) (1/10) ∧
    calculateDistance jWiL jWoR / max (calculateDistance jShL jShR) (1/10) = 5 := by
  refine ⟨gate_jFI, C10_jj_gate_and_raw_wrists.2.1 JumpingJackAnalyzer.init jjFrameInvis
    jShL jShR jWiL jWoR gate_jFI lk_jFI_11 lk_jFI_12 lk_jFI_15 lk_jFI_16, ?_⟩
  rw [dist_invis, dist_shoulders, max_eq_left (by norm_num)]
  norm_num

/-- C6: squat joint selection. If neither leg is usable the tracker returns
the neutral out-of-view result with the previous count and the state is
untouched; with exactly one usable leg that leg's hip-knee-ankle angle is
selected; with both usable the leg with the strictly larger visibility sum
wins (ties go to the right leg, which the claim leaves unconstrained); and
on every accepted frame analyze is the core machine applied to
squatKneeAngle of the current frame alone, so the selection is recomputed
from each frame independently of tracker state. -/
theorem C6_squat_selection :
    (∀ (s : SquatAnalyzer) (lm : Frame),
       squatLeftVisible lm = false → squatRightVisible lm = false →
       s.analyze lm =
         (s, ⟨false, some 0, "请确保下半身在摄像头范围内", some s.squatCount, none⟩)) ∧
    (∀ (lm : Frame) (h k a : Landmark),
       squatLeftVisible lm = true → squatRightVisible lm = false →
       lm[23]? = some h → lm[25]? = some k → lm[27]? = some a →
       squatKneeAngle lm = calculateAngle h k a) ∧
    (∀ (lm : Frame) (h k a : Landmark),
       squatLeftVisible lm = false → squatRightVisible lm = true →
       lm[24]? = some h → lm[26]? = some k → lm[28]? = some a →
       squatKneeAngle lm = calculateAngle h k a) ∧
    (∀ (lm : Frame) (h k a : Landmark),
       squatLeftVisible lm = true → squatRightVisible lm = true →
       visOf lm[24]? + visOf lm[26]? + visOf lm[28]? <
         visOf lm[23]? + visOf lm[25]? + visOf lm[27]? →
       lm[23]? = some h → lm[25]? = some k → lm[27]? = some a →
       squatKneeAngle lm = calculateAngle h k a) ∧
    (∀ (lm : Frame) (h k a : Landmark),
       squatLeftVisible lm = true → squatRightVisible lm = true →
       visOf lm[23]? + visOf lm[25]? + visOf lm[27]? ≤
         visOf lm[24]? + visOf lm[26]? + visOf lm[28]? →
       lm[24]? = some h → lm[26]? = some k → lm[28]? = some a →
       squatKneeAngle lm = calculateAngle h k a) ∧
    (∀ (s : SquatAnalyzer) (lm : Frame),
       (squatLeftVisible lm || squatRightVisible lm) = true →
       s.analyze lm = s.analyzeCore (squatKneeAngle lm)) := by
  refine ⟨?_, ?_, ?_, ?_, ?_, ?_⟩
  · intro s lm hL hR
    unfold SquatAnalyzer.analyze
    rw [hL, hR]
    simp
  · intro lm h k a hL hR e23 e25 e27
    unfold squatKneeAngle
    by_cases hv : visOf lm[24]? + visOf lm[26]? + visOf lm[28]? <
        visOf lm[23]? + visOf lm[25]? + visOf lm[27]?
    · rw [if_pos ⟨hv, hL⟩, e23, e25, e27]
    · rw [if_neg (by tauto), if_neg (by simp [hR]), if_pos hL, e23, e25, e27]
  · intro lm h k a hL hR e24 e26 e28
    unfold squatKneeAngle
    rw [if_neg (by simp [hL]), if_pos hR, e24, e26, e28]
  · intro lm h k a hL hR hv e23 e25 e27
    unfold squatKneeAngle
    rw [if_pos ⟨hv, hL⟩, e23, e25, e27]
  · intro lm h k a hL hR hv e24 e26 e28
    unfold squatKneeAngle
    rw [if_neg (by rw [not_and]; intro hlt; exact absurd hlt (not_lt.mpr hv)), if_pos hR,
        e24, e26, e28]
  · intro s lm hacc
    unfold SquatAnalyzer.analyze
    rcases Bool.or_eq_true_iff.mp hacc with h | h
    · rw [h]
      simp
    · rw [h]
      simp

/-- C6 witness: the neutral branch on the empty frame leaves a fresh
tracker untouched, and on squatFrameU (left leg only) the selected angle is
the left hip-knee-ankle angle. -/
theorem C6_witness :
    SquatAnalyzer.init.analyze [] =
      (SquatAnalyzer.init, ⟨false, some 0, "请确保下半身在摄像头范围内", some 0, none⟩) ∧
    squatKneeAngle squatFrameU = calculateAngle vTop vMid vBot := by
  constructor
  · exact C6_squat_selection.1 SquatAnalyzer.init []
      (by simp [squatLeftVisible, visOk]) (by simp [squatRightVisible, visOk])
  · exact C6_squat_selection.2.1 squatFrameU vTop vMid vBot gate_sFU_L gate_sFU_R
      lk_sFU_23 lk_sFU_25 lk_sFU_27

/-- C7 amended: for SquatAnalyzer.updateCount, with cd denoting the
post-decrement cooldown of the frame: an up-to-down confirmed transition
after at least 3 stable frames sets the in-squat flag only when cd = 0
(the cooldown condition is the correction forced by the counterexample);
when cd is nonzero the flag and the count are untouched; a down-to-up
transition with the flag set, 3 stable frames and cd = 0 increments the
count by exactly 1, sets the cooldown counter to 10 and clears the flag;
and any transition without 3 stable frames changes neither count, flag nor
(beyond the decrement) cooldown. -/
theorem C7_squat_count_update :
    (∀ (s : SquatAnalyzer) (cur : UD),
       s.lastState = .up → cur = .down → 3 ≤ s.stateChangedFrames →
       (if 0 < s.cooldownCounter then s.cooldownCounter - 1 else s.cooldownCounter) = 0 →
       (s.updateCount cur).1.inSquatPosition = true ∧
       (s.updateCount cur).1.squatCount = s.squatCount) ∧
    (∀ (s : SquatAnalyzer) (cur : UD),
       s.lastState = .up → cur = .down → 3 ≤ s.stateChangedFrames →
       (if 0 < s.cooldownCounter then s.cooldownCounter - 1 else s.cooldownCounter) ≠ 0 →
       (s.updateCount cur).1.inSquatPosition = s.inSquatPosition ∧
       (s.updateCount cur).1.squatCount = s.squatCount) ∧
    (∀ (s : SquatAnalyzer) (cur : UD),
       s.lastState = .down → cur = .up → 3 ≤ s.stateChangedFrames →
       s.inSquatPosition = true →
       (if 0 < s.cooldownCounter then s.cooldownCounter - 1 else s.cooldownCounter) = 0 →
       (s.updateCount cur).1.squatCount = s.squatCount + 1 ∧
       (s.updateCount cur).1.cooldownCounter = 10 ∧
       (s.updateCount cur).1.inSquatPosition = false) ∧
    (∀ (s : SquatAnalyzer) (cur : UD),
       cur ≠ s.lastState → s.stateChangedFrames < 3 →
       (s.updateCount cur).1.squatCount = s.squatCount ∧
       (s.updateCount cur).1.inSquatPosition = s.inSquatPosition ∧
       (s.updateCount cur).1.cooldownCounter =
         (if 0 < s.cooldownCounter then s.cooldownCounter - 1 else s.cooldownCounter)) := by
  refine ⟨?_, ?_, ?_, ?_⟩
  · intro s cur h1 h2 h3 h4
    simp [SquatAnalyzer.updateCount, h1, h2, h3, h4]
  · intro s cur h1 h2 h3 h4
    simp [SquatAnalyzer.updateCount, h1, h2, h3, h4]
  · intro s cur h1 h2 h3 h4 h5
    simp [SquatAnalyzer.updateCount, h1, h2, h3, h4, h5]
  · intro s cur h1 h2
    simp [SquatAnalyzer.updateCount, h1, Nat.not_le.mpr h2]

/-- C7 witness for the amended statement: concrete states exercising the
flag-setting (cooldown 0), the suppressed flag (post-decrement cooldown 4),
and the counting transition. -/
theorem C7_witness :
    (SquatAnalyzer.updateCount ⟨0, .up, false, 0, 2, 5, 0⟩ .down).1.inSquatPosition = true ∧
    (SquatAnalyzer.updateCount ⟨1, .up, false, 0, 2, 4, 5⟩ .down).1.inSquatPosition = false ∧
    (SquatAnalyzer.updateCount ⟨0, .down, true, 2, 0, 4, 0⟩ .up).1.squatCount = 1 ∧
    (SquatAnalyzer.updateCount ⟨0, .down, true, 2, 0, 4, 0⟩ .up).1.cooldownCounter = 10 := by
  refine ⟨(C7_squat_count_update.1 ⟨0, .up, false, 0, 2, 5, 0⟩ .down rfl rfl
      (by norm_num) (by norm_num)).1, ?_, ?_, ?_⟩
  · rw [(C7_squat_count_update.2.1 ⟨1, .up, false, 0, 2, 4, 5⟩ .down rfl rfl
      (by norm_num) (by norm_num)).1]
  · rw [(C7_squat_count_update.2.2.1 ⟨0, .down, true, 2, 0, 4, 0⟩ .up rfl rfl
      (by norm_num) rfl (by norm_num)).1]
  · exact (C7_squat_count_update.2.2.1 ⟨0, .down, true, 2, 0, 4, 0⟩ .up rfl rfl
      (by norm_num) rfl (by norm_num)).2.1

/-- C7 counterexample: running a fresh squat tracker over squatSeq, frame 16
performs a confirmed up-to-down transition out of a phase held for 4 frames
(4 straight, 5 bent, 5 straight frames produced one counted squat and its
10-frame cooldown; the two final bent frames confirm down again with 5
cooldown frames left) and the in-squat flag is NOT set, refuting the claim
that every such stable up-to-down transition sets the flag. -/
theorem C7_cex :
    (squatIter squatSeq 15).lastState = .up ∧
    3 ≤ (squatIter squatSeq 15).stateChangedFrames ∧
    (squatIter squatSeq 16).lastState = .down ∧
    (squatIter squatSeq 16).inSquatPosition = false := by
  have h1 : squatIter squatSeq 1 = ⟨0, .up, false, 1, 0, 1, 0⟩ := by
    rw [show (1 : ℕ) = 0 + 1 from rfl, squatIter,
        show squatSeq 0 = squatFrameU from by norm_num [squatSeq]]
    rw [show squatIter squatSeq 0 = SquatAnalyzer.init from rfl]
    rw [squat_step_U]
    norm_num [SquatAnalyzer.analyzeCore, SquatAnalyzer.detectSquatState,
              SquatAnalyzer.updateCount, jsLtB, jsGtB, SquatAnalyzer.init]
    try simp
  have h2 : squatIter squatSeq 2 = ⟨0, .up, false, 2, 0, 2, 0⟩ := by
    rw [show (2 : ℕ) = 1 + 1 from rfl, squatIter,
        show squatSeq 1 = squatFrameU from by norm_num [squatSeq], h1]
    rw [squat_step_U]
    norm_num [SquatAnalyzer.analyzeCore, SquatAnalyzer.detectSquatState,
              SquatAnalyzer.updateCount, jsLtB, jsGtB]
    try simp
  have h3 : squatIter squatSeq 3 = ⟨0, .up, false, 3, 0, 3, 0⟩ := by
    rw [show (3 : ℕ) = 2 + 1 from rfl, squatIter,
        show squatSeq 2 = squatFrameU from by norm_num [squatSeq], h2]
    rw [squat_step_U]
    norm_num [SquatAnalyzer.analyzeCore, SquatAnalyzer.detectSquatState,
              SquatAnalyzer.updateCount, jsLtB, jsGtB]
    try simp
  have h4 : squatIter squatSeq 4 = ⟨0, .up, false, 4, 0, 4, 0⟩ := by
    rw [show (4 : ℕ) = 3 + 1 from rfl, squatIter,
        show squatSeq 3 = squatFrameU from by norm_num [squatSeq], h3]
    rw [squat_step_U]
    norm_num [SquatAnalyzer.analyzeCore, SquatAnalyzer.detectSquatState,
              SquatAnalyzer.updateCount, jsLtB, jsGtB]
    try simp
  have h5 : squatIter squatSeq 5 = ⟨0, .up, false, 0, 1, 5, 0⟩ := by
    rw [show (5 : ℕ) = 4 + 1 from rfl, squatIter,
        show squatSeq 4 = squatFrameD from by norm_num [squatSeq], h4]
    rw [squat_step_D]
    norm_num [SquatAnalyzer.analyzeCore, SquatAnalyzer.detectSquatState,
              SquatAnalyzer.updateCount, jsLtB, jsGtB]
    try simp
  have h6 : squatIter squatSeq 6 = ⟨0, .down, true, 0, 2, 0, 0⟩ := by
    rw [show (6 : ℕ) = 5 + 1 from rfl, squatIter,
        show squatSeq 5 = squatFrameD from by norm_num [squatSeq], h5]
    rw [squat_step_D]
    norm_num [SquatAnalyzer.analyzeCore, SquatAnalyzer.detectSquatState,
              SquatAnalyzer.updateCount, jsLtB, jsGtB]
    try simp
  have h7 : squatIter squatSeq 7 = ⟨0, .down, true, 0, 3, 1, 0⟩ := by
    rw [show (7 : ℕ) = 6 + 1 from rfl, squatIter,
        show squatSeq 6 = squatFrameD from by norm_num [squatSeq], h6]
    rw [squat_step_D]
    norm_num [SquatAnalyzer.analyzeCore, SquatAnalyzer.detectSquatState,
              SquatAnalyzer.updateCount, jsLtB, jsGtB]
    try simp
  have h8 : squatIter squatSeq 8 = ⟨0, .down, true, 0, 4, 2, 0⟩ := by
    rw [show (8 : ℕ) = 7 + 1 from rfl, squatIter,
        show squatSeq 7 = squatFrameD from by norm_num [squatSeq], h7]
    rw [squat_step_D]
    norm_num [SquatAnalyzer.analyzeCore, SquatAnalyzer.detectSquatState,
              SquatAnalyzer.updateCount, jsLtB, jsGtB]
    try simp
  have h9 : squatIter squatSeq 9 = ⟨0, .down, true, 0, 5, 3, 0⟩ := by
    rw [show (9 : ℕ) = 8 + 1 from rfl, squatIter,
        show squatSeq 8 = squatFrameD from by norm_num [squatSeq], h8]
    rw [squat_step_D]
    norm_num [SquatAnalyzer.analyzeCore, SquatAnalyzer.detectSquatState,
              SquatAnalyzer.updateCount, jsLtB, jsGtB]
    try simp
  have h10 : squatIter squatSeq 10 = ⟨0, .down, true, 1, 0, 4, 0⟩ := by
    rw [show (10 : ℕ) = 9 + 1 from rfl, squatIter,
        show squatSeq 9 = squatFrameU from by norm_num [squatSeq], h9]
    rw [squat_step_U]
    norm_num [SquatAnalyzer.analyzeCore, SquatAnalyzer.detectSquatState,
              SquatAnalyzer.updateCount, jsLtB, jsGtB]
    try simp
  have h11 : squatIter squatSeq 11 = ⟨1, .up, false, 2, 0, 0, 10⟩ := by
    rw [show (11 : ℕ) = 10 + 1 from rfl, squatIter,
        show squatSeq 10 = squatFrameU from by norm_num [squatSeq], h10]
    rw [squat_step_U]
    norm_num [SquatAnalyzer.analyzeCore, SquatAnalyzer.detectSquatState,
              SquatAnalyzer.updateCount, jsLtB, jsGtB]
    try simp
  have h12 : squatIter squatSeq 12 = ⟨1, .up, false, 3, 0, 1, 9⟩ := by
    rw [show (12 : ℕ) = 11 + 1 from rfl, squatIter,
        show squatSeq 11 = squatFrameU from by norm_num [squatSeq], h11]
    rw [squat_step_U]
    norm_num [SquatAnalyzer.analyzeCore, SquatAnalyzer.detectSquatState,
              SquatAnalyzer.updateCount, jsLtB, jsGtB]
    try simp
  have h13 : squatIter squatSeq 13 = ⟨1, .up, false, 4, 0, 2, 8⟩ := by
    rw [show (13 : ℕ) = 12 + 1 from rfl, squatIter,
        show squatSeq 12 = squatFrameU from by norm_num [squatSeq], h12]
    rw [squat_step_U]
    norm_num [SquatAnalyzer.analyzeCore, SquatAnalyzer.detectSquatState,
              SquatAnalyzer.updateCount, jsLtB, jsGtB]
    try simp
  have h14 : squatIter squatSeq 14 = ⟨1, .up, false, 5, 0, 3, 7⟩ := by
    rw [show (14 : ℕ) = 13 + 1 from rfl, squatIter,
        show squatSeq 13 = squatFrameU from by norm_num [squatSeq], h13]
    rw [squat_step_U]
    norm_num [SquatAnalyzer.analyzeCore, SquatAnalyzer.detectSquatState,
              SquatAnalyzer.updateCount, jsLtB, jsGtB]
    try simp
  have h15 : squatIter squatSeq 15 = ⟨1, .up, false, 0, 1, 4, 6⟩ := by
    rw [show (15 : ℕ) = 14 + 1 from rfl, squatIter,
        show squatSeq 14 = squatFrameD from by norm_num [squatSeq], h14]
    rw [squat_step_D]
    norm_num [SquatAnalyzer.analyzeCore, SquatAnalyzer.detectSquatState,
              SquatAnalyzer.updateCount, jsLtB, jsGtB]
    try simp
  have h16 : squatIter squatSeq 16 = ⟨1, .down, false, 0, 2, 0, 5⟩ := by
    rw [show (16 : ℕ) = 15 + 1 from rfl, squatIter,
        show squatSeq 15 = squatFrameD from by norm_num [squatSeq], h15]
    rw [squat_step_D]
    norm_num [SquatAnalyzer.analyzeCore, SquatAnalyzer.detectSquatState,
              SquatAnalyzer.updateCount, jsLtB, jsGtB]
    try simp
  rw [h15, h16]
  refine ⟨rfl, by norm_num, rfl, rfl⟩

/-- One plank step on an accepted, correct-form frame: the stability
counter grows, the duration accrues from the tenth stable frame on, and
the result reports the updated duration and correctness. -/
theorem plank_good_step (s : PlankAnalyzer) (lm : Frame)
    (h1 : plankRejected lm = false) (h2 : plankFormOk lm = true) :
    (s.analyze lm).1 = (if 10 ≤ s.stableFrames + 1 then
        ⟨s.plankDuration + 1, true, s.stableFrames + 1, 0⟩
      else ⟨s.plankDuration, s.isInPlank, s.stableFrames + 1, 0⟩) ∧
    (s.analyze lm).2.isCorrect = decide (10 ≤ s.stableFrames + 1) ∧
    (s.analyze lm).2.duration = some (((s.analyze lm).1.plankDuration : ℚ) / 30) := by
  unfold PlankAnalyzer.analyze
  rw [h1, h2]
  by_cases h10 : 10 ≤ s.stableFrames + 1
  · simp [h10]
  · simp [h10]

/-- Feeding a fresh plank tracker n good frames (n at most 15) leaves the
stability counter at n, the unstable counter at 0, the duration at n - 9
(truncated) and the in-plank flag set once n reaches 10. -/
theorem plank_good_invariant (fr : ℕ → Frame)
    (hg : ∀ i, i < 15 → plankRejected (fr i) = false ∧ plankFormOk (fr i) = true) :
    ∀ k, k ≤ 15 → plankIter fr k = ⟨k - 9, decide (10 ≤ k), k, 0⟩ := by
  intro k
  induction k with
  | zero => intro _; rfl
  | succ n ih =>
    intro hn
    have hgood := hg n (by omega)
    rw [plankIter, (plank_good_step _ _ hgood.1 hgood.2).1, ih (by omega)]
    by_cases h10 : 10 ≤ n + 1
    · rw [if_pos (by simpa using h10)]
      have e : n + 1 - 9 = n - 9 + 1 := by omega
      simp [e, h10]
    · rw [if_neg (by simpa using h10)]
      have e1 : n + 1 - 9 = 0 := by omega
      have e2 : n - 9 = 0 := by omega
      have e3 : ¬(10 ≤ n) := by omega
      simp [e1, e2, e3, h10]

/-- C4 amended: over any 15 good plank frames (all gate joints visible,
both elbows below their shoulders), frames 1 to 9 report duration 0 and
isCorrect false; from frame 10 on isCorrect is true and the reported
duration equals (stableFrames - 9)/30 — not stableFrames/30 as claimed:
the duration counter starts 9 frames after the stability counter. -/
theorem C4_plank_scenario :
    ∀ (fr : ℕ → Frame),
      (∀ i, i < 15 → plankRejected (fr i) = false ∧ plankFormOk (fr i) = true) →
      ∀ k, k < 15 →
        (k + 1 ≤ 9 →
          (plankResAt fr k).duration = some 0 ∧ (plankResAt fr k).isCorrect = false) ∧
        (10 ≤ k + 1 →
          (plankResAt fr k).isCorrect = true ∧
          (plankIter fr (k + 1)).stableFrames = k + 1 ∧
          (plankResAt fr k).duration =
            some ((((plankIter fr (k + 1)).stableFrames : ℚ) - 9) / 30)) := by
  intro fr hg k hk
  have hgood := hg k hk
  have hstep := plank_good_step (plankIter fr k) (fr k) hgood.1 hgood.2
  have hinv : plankIter fr k = ⟨k - 9, decide (10 ≤ k), k, 0⟩ :=
    plank_good_invariant fr hg k (by omega)
  have hiter : plankIter fr (k + 1) = ⟨k + 1 - 9, decide (10 ≤ k + 1), k + 1, 0⟩ :=
    plank_good_invariant fr hg (k + 1) (by omega)
  have hstate : plankIter fr (k + 1) = ((plankIter fr k).analyze (fr k)).1 := by
    rw [plankIter]
  have hd : (plankResAt fr k).duration =
      some (((plankIter fr (k + 1)).plankDuration : ℚ) / 30) := by
    rw [plankResAt, hstep.2.2, ← hstate]
  have hic : (plankResAt fr k).isCorrect =
      decide (10 ≤ (plankIter fr k).stableFrames + 1) := by
    rw [plankResAt, hstep.2.1]
  constructor
  · intro h9
    constructor
    · rw [hd, hiter]
      have e : k + 1 - 9 = 0 := by omega
      simp [e]
    · rw [hic, hinv]
      have e : ¬(10 ≤ k + 1) := by omega
      simp
      omega
  · intro h10
    refine ⟨?_, by rw [hiter], ?_⟩
    · rw [hic, hinv]
      simp
      omega
    · rw [hd, hiter]
      have e : ((k + 1 - 9 : ℕ) : ℚ) = ((k + 1 : ℕ) : ℚ) - 9 := by
        rw [Nat.cast_sub (by omega)]
        push_cast
        ring
      simp only []
      norm_num [e]

/-- C4 counterexample: on 10 identical good plank frames the tenth result
has isCorrect true and stableFrames = 10, but its duration is 1/30 (one
accrued frame at 30 fps), not stableFrames/30 = 10/30 as the claim
states. -/
theorem C4_cex :
    (plankResAt (fun _ => plankFrameGood) 9).isCorrect = true ∧
    (plankIter (fun _ => plankFrameGood) 10).stableFrames = 10 ∧
    (plankResAt (fun _ => plankFrameGood) 9).duration = some (1 / 30) ∧
    (plankResAt (fun _ => plankFrameGood) 9).duration ≠
      some (((plankIter (fun _ => plankFrameGood) 10).stableFrames : ℚ) / 30) := by
  have hg : ∀ i, i < 15 → plankRejected ((fun _ => plankFrameGood) i) = false ∧
      plankFormOk ((fun _ => plankFrameGood) i) = true := fun i _ => ⟨gate_pFG, form_pFG⟩
  have hinv9 := plank_good_invariant (fun _ => plankFrameGood) hg 9 (by norm_num)
  have hinv10 := plank_good_invariant (fun _ => plankFrameGood) hg 10 (by norm_num)
  have hstep := plank_good_step (plankIter (fun _ => plankFrameGood) 9) plankFrameGood
    gate_pFG form_pFG
  have hstate : plankIter (fun _ => plankFrameGood) 10 =
      ((plankIter (fun _ => plankFrameGood) 9).analyze plankFrameGood).1 := by
    rw [plankIter]
  have hd : (plankResAt (fun _ => plankFrameGood) 9).duration = some (1 / 30) := by
    rw [plankResAt]
    show ((plankIter (fun _ => plankFrameGood) 9).analyze plankFrameGood).2.duration = _
    rw [hstep.2.2, ← hstate, hinv10]
    norm_num
  refine ⟨?_, by rw [hinv10], hd, ?_⟩
  · rw [plankResAt]
    show ((plankIter (fun _ => plankFrameGood) 9).analyze plankFrameGood).2.isCorrect = _
    rw [hstep.2.1, hinv9]
    simp
  · rw [hd, hinv10]
    norm_num

/-- C4 witness: the amended statement instantiated on the constant good
stream at frames 4 and 10. -/
theorem C4_witness :
    (plankResAt (fun _ => plankFrameGood) 3).duration = some 0 ∧
    (plankResAt (fun _ => plankFrameGood) 3).isCorrect = false ∧
    (plankResAt (fun _ => plankFrameGood) 9).isCorrect = true ∧
    (plankIter (fun _ => plankFrameGood) 10).stableFrames = 10 ∧
    (plankResAt (fun _ => plankFrameGood) 9).duration =
      some ((((plankIter (fun _ => plankFrameGood) 10).stableFrames : ℚ) - 9) / 30) := by
  have hg : ∀ i, i < 15 → plankRejected ((fun _ => plankFrameGood) i) = false ∧
      plankFormOk ((fun _ => plankFrameGood) i) = true := fun i _ => ⟨gate_pFG, form_pFG⟩
  have h3 := C4_plank_scenario (fun _ => plankFrameGood) hg 3 (by norm_num)
  have h9 := C4_plank_scenario (fun _ => plankFrameGood) hg 9 (by norm_num)
  exact ⟨(h3.1 (by norm_num)).1, (h3.1 (by norm_num)).2, (h9.2 (by norm_num)).1,
    (h9.2 (by norm_num)).2.1, (h9.2 (by norm_num)).2.2⟩

/-- On its first frame after a reset the squat core cannot count: the
debounce keeps the confirmed state at up and the counter at 0. -/
theorem squat_core_first (a : Option ℝ) :
    (SquatAnalyzer.init.analyzeCore a).2.count = some 0 := by
  unfold SquatAnalyzer.analyzeCore SquatAnalyzer.detectSquatState
  by_cases h1 : jsLtB a 140 = true <;> by_cases h2 : jsGtB a 140 = true <;>
    simp [h1, h2, SquatAnalyzer.init, SquatAnalyzer.updateCount]

/-- Same for the pushup core (requiredFrames = 5). -/
theorem pushup_core_first (a : Option ℝ) :
    (PushupAnalyzer.init.analyzeCore a).2.count = some 0 := by
  unfold PushupAnalyzer.analyzeCore PushupAnalyzer.detectPushupState
  by_cases h1 : jsLtB a 115 = true <;> by_cases h2 : jsGtB a 155 = true <;>
    simp [h1, h2, PushupAnalyzer.init, PushupAnalyzer.updatePushupCount]

/-- Same for the jumping-jack core (requiredFrames = 3). -/
theorem jj_core_first (r : ℝ) (a : Bool) :
    (JumpingJackAnalyzer.init.analyzeCore r a).2.count = some 0 := by
  unfold JumpingJackAnalyzer.analyzeCore
  by_cases hb : decide ((7 : ℝ)/5 < r) = true <;>
    simp [hb, JumpingJackAnalyzer.init, JumpingJackAnalyzer.updateJumpingJackCount]

/-- C8: for each of the four trackers, reset() is idempotent and equal to
the freshly constructed state, a reset tracker produces the same result
sequence as a fresh one on every input list, and the first result after a
reset reports count 0 (squat, pushup, jumping-jack) or duration 0
(plank). -/
theorem C8_reset_behavior :
    ((∀ s : SquatAnalyzer, s.reset.reset = s.reset) ∧
     (∀ s : SquatAnalyzer, s.reset = SquatAnalyzer.init) ∧
     (∀ (s : SquatAnalyzer) (fs : List Frame),
       squatResults s.reset fs = squatResults SquatAnalyzer.init fs) ∧
     (∀ (s : SquatAnalyzer) (lm : Frame), (s.reset.analyze lm).2.count = some 0)) ∧
    ((∀ s : PushupAnalyzer, s.reset.reset = s.reset) ∧
     (∀ s : PushupAnalyzer, s.reset = PushupAnalyzer.init) ∧
     (∀ (s : PushupAnalyzer) (fs : List Frame),
       pushupResults s.reset fs = pushupResults PushupAnalyzer.init fs) ∧
     (∀ (s : PushupAnalyzer) (lm : Frame), (s.reset.analyze lm).2.count = some 0)) ∧
    ((∀ s : PlankAnalyzer, s.reset.reset = s.reset) ∧
     (∀ s : PlankAnalyzer, s.reset = PlankAnalyzer.init) ∧
     (∀ (s : PlankAnalyzer) (fs : List Frame),
       plankResults s.reset fs = plankResults PlankAnalyzer.init fs) ∧
     (∀ (s : PlankAnalyzer) (lm : Frame), (s.reset.analyze lm).2.duration = some 0)) ∧
    ((∀ s : JumpingJackAnalyzer, s.reset.reset = s.reset) ∧
     (∀ s : JumpingJackAnalyzer, s.reset = JumpingJackAnalyzer.init) ∧
     (∀ (s : JumpingJackAnalyzer) (fs : List Frame),
       jjResults s.reset fs = jjResults JumpingJackAnalyzer.init fs) ∧
     (∀ (s : JumpingJackAnalyzer) (lm : Frame), (s.reset.analyze lm).2.count = some 0)) := by
  refine ⟨⟨fun s => rfl, fun s => rfl, fun s fs => rfl, ?_⟩,
          ⟨fun s => rfl, fun s => rfl, fun s fs => rfl, ?_⟩,
          ⟨fun s => rfl, fun s => rfl, fun s fs => rfl, ?_⟩,
          ⟨fun s => rfl, fun s => rfl, fun s fs => rfl, ?_⟩⟩
  · intro s lm
    show (SquatAnalyzer.init.analyze lm).2.count = some 0
    by_cases h : (!squatLeftVisible lm && !squatRightVisible lm) = true
    · simp [SquatAnalyzer.analyze, h, SquatAnalyzer.init]
    · simp only [SquatAnalyzer.analyze, h]
      simp [squat_core_first]
  · intro s lm
    show (PushupAnalyzer.init.analyze lm).2.count = some 0
    by_cases h : pushupRejected lm = true
    · simp [PushupAnalyzer.analyze, h, PushupAnalyzer.init]
    · rw [pushup_accept _ _ (by simp at h; exact h)]
      exact pushup_core_first _
  · intro s lm
    show (PlankAnalyzer.init.analyze lm).2.duration = some 0
    by_cases h : plankRejected lm = true
    · simp [PlankAnalyzer.analyze, h, PlankAnalyzer.init]
    · by_cases hf : plankFormOk lm = true
      · have hs := plank_good_step PlankAnalyzer.init lm (by simp at h; exact h) hf
        rw [hs.2.2, hs.1]
        norm_num [PlankAnalyzer.init]
      · have h' : plankRejected lm = false := by simp at h; exact h
        have hf' : plankFormOk lm = false := by simp at hf; exact hf
        unfold PlankAnalyzer.analyze
        rw [h', hf']
        simp [PlankAnalyzer.init]
  · intro s lm
    show (JumpingJackAnalyzer.init.analyze lm).2.count = some 0
    by_cases h : jjRejected lm = true
    · simp [JumpingJackAnalyzer.analyze, h, JumpingJackAnalyzer.init]
    · rw [jj_accept _ _ (by simp at h; exact h)]
      exact jj_core_first _ _

/-- On a frame that passes the squat gate, analyze is the core machine fed
with the knee angle of the frame. -/
theorem squat_accept (s : SquatAnalyzer) (lm : Frame)
    (h : (squatLeftVisible lm || squatRightVisible lm) = true) :
    s.analyze lm = s.analyzeCore (squatKneeAngle lm) := by
  unfold SquatAnalyzer.analyze
  rcases Bool.or_eq_true_iff.mp h with h' | h' <;> rw [h'] <;> simp

/-- A single raw-phase crossing (opposite-direction counter 0) does not
change the confirmed squat phase or the count, and leaves the counter of
the confirmed direction at 0. -/
theorem squat_core_cross (s : SquatAnalyzer) (a : Option ℝ)
    (hraw : s.detectSquatState a ≠ s.lastState)
    (hupp : s.lastState = .up → s.consecutiveDownFrames = 0)
    (hdwn : s.lastState = .down → s.consecutiveUpFrames = 0) :
    (s.analyzeCore a).1.lastState = s.lastState ∧
    (s.analyzeCore a).1.squatCount = s.squatCount ∧
    (s.analyzeCore a).2.count = some s.squatCount ∧
    (s.lastState = .up → (s.analyzeCore a).1.consecutiveUpFrames = 0) ∧
    (s.lastState = .down → (s.analyzeCore a).1.consecutiveDownFrames = 0) := by
  rcases hL : s.lastState with _ | _
  · rcases hd : s.detectSquatState a with _ | _
    · exact absurd (hd.trans hL.symm) hraw
    · have h0 := hupp hL
      unfold SquatAnalyzer.analyzeCore
      rw [hd, hL]
      simp [h0, SquatAnalyzer.updateCount, hL]
  · rcases hd : s.detectSquatState a with _ | _
    · have h0 := hdwn hL
      unfold SquatAnalyzer.analyzeCore
      rw [hd, hL]
      simp [h0, SquatAnalyzer.updateCount, hL]
    · exact absurd (hd.trans hL.symm) hraw

/-- A raw phase equal to the confirmed phase whose consecutive counter is
still below the debounce threshold does not change the confirmed squat
phase or the count. -/
theorem squat_core_same (s : SquatAnalyzer) (a : Option ℝ)
    (hraw : s.detectSquatState a = s.lastState)
    (hup : s.lastState = .up → s.consecutiveUpFrames + 1 < 2)
    (hdn : s.lastState = .down → s.consecutiveDownFrames + 1 < 2) :
    (s.analyzeCore a).1.lastState = s.lastState ∧
    (s.analyzeCore a).1.squatCount = s.squatCount ∧
    (s.analyzeCore a).2.count = some s.squatCount := by
  rcases hL : s.lastState with _ | _
  · have hc := hup hL
    unfold SquatAnalyzer.analyzeCore
    rw [hraw, hL]
    simp [SquatAnalyzer.updateCount, hL, Nat.lt_of_succ_lt_succ hc]
  · have hc := hdn hL
    unfold SquatAnalyzer.analyzeCore
    rw [hraw, hL]
    simp [SquatAnalyzer.updateCount, hL, Nat.lt_of_succ_lt_succ hc]

/-- Pushup analog of squat_core_cross (requiredFrames = 5). -/
theorem pushup_core_cross (s : PushupAnalyzer) (a : Option ℝ)
    (hraw : s.detectPushupState a ≠ s.lastState)
    (hupp : s.lastState = .up → s.consecutiveDownFrames = 0)
    (hdwn : s.lastState = .down → s.consecutiveUpFrames = 0) :
    (s.analyzeCore a).1.lastState = s.lastState ∧
    (s.analyzeCore a).1.pushupCount = s.pushupCount ∧
    (s.analyzeCore a).2.count = some s.pushupCount ∧
    (s.lastState = .up → (s.analyzeCore a).1.consecutiveUpFrames = 0) ∧
    (s.lastState = .down → (s.analyzeCore a).1.consecutiveDownFrames = 0) := by
  rcases hL : s.lastState with _ | _
  · rcases hd : s.detectPushupState a with _ | _
    · exact absurd (hd.trans hL.symm) hraw
    · have h0 := hupp hL
      unfold PushupAnalyzer.analyzeCore
      rw [hd, hL]
      simp [h0, PushupAnalyzer.updatePushupCount, hL]
  · rcases hd : s.detectPushupState a with _ | _
    · have h0 := hdwn hL
      unfold PushupAnalyzer.analyzeCore
      rw [hd, hL]
      simp [h0, PushupAnalyzer.updatePushupCount, hL]
    · exact absurd (hd.trans hL.symm) hraw

/-- Pushup analog of squat_core_same (requiredFrames = 5). -/
theorem pushup_core_same (s : PushupAnalyzer) (a : Option ℝ)
    (hraw : s.detectPushupState a = s.lastState)
    (hup : s.lastState = .up → s.consecutiveUpFrames + 1 < 5)
    (hdn : s.lastState = .down → s.consecutiveDownFrames + 1 < 5) :
    (s.analyzeCore a).1.lastState = s.lastState ∧
    (s.analyzeCore a).1.pushupCount = s.pushupCount ∧
    (s.analyzeCore a).2.count = some s.pushupCount := by
  rcases hL : s.lastState with _ | _
  · have hc := hup hL
    unfold PushupAnalyzer.analyzeCore
    rw [hraw, hL]
    simp [PushupAnalyzer.updatePushupCount, hL, Nat.lt_of_succ_lt_succ hc]
  · have hc := hdn hL
    unfold PushupAnalyzer.analyzeCore
    rw [hraw, hL]
    simp [PushupAnalyzer.updatePushupCount, hL, Nat.lt_of_succ_lt_succ hc]

/-- Jumping-jack analog of squat_core_cross (requiredFrames = 3). The raw
state of the frame is the threshold comparison of the arm ratio. -/
theorem jj_core_cross (s : JumpingJackAnalyzer) (r : ℝ) (a : Bool)
    (hraw : (if (7 : ℝ)/5 < r then OC.opened else OC.closed) ≠ s.lastState)
    (hcl : s.lastState = .closed → s.consecutiveOpenFrames = 0)
    (hop : s.lastState = .opened → s.consecutiveClosedFrames = 0) :
    (s.analyzeCore r a).1.lastState = s.lastState ∧
    (s.analyzeCore r a).1.jumpCount = s.jumpCount ∧
    (s.analyzeCore r a).2.count = some (s.jumpCount / 2) ∧
    (s.lastState = .closed → (s.analyzeCore r a).1.consecutiveClosedFrames = 0) ∧
    (s.lastState = .opened → (s.analyzeCore r a).1.consecutiveOpenFrames = 0) := by
  rcases hL : s.lastState with _ | _
  · by_cases hr : (7 : ℝ)/5 < r
    · have h0 := hcl hL
      unfold JumpingJackAnalyzer.analyzeCore
      simp [hr, h0, JumpingJackAnalyzer.updateJumpingJackCount, hL,
            apply_ite JumpingJackAnalyzer.jumpCount,
            apply_ite JumpingJackAnalyzer.consecutiveOpenFrames,
            apply_ite JumpingJackAnalyzer.consecutiveClosedFrames]
    · rw [if_neg hr] at hraw
      exact absurd hL.symm hraw
  · by_cases hr : (7 : ℝ)/5 < r
    · rw [if_pos hr] at hraw
      exact absurd hL.symm hraw
    · have h0 := hop hL
      unfold JumpingJackAnalyzer.analyzeCore
      simp [hr, h0, JumpingJackAnalyzer.updateJumpingJackCount, hL,
            apply_ite JumpingJackAnalyzer.jumpCount,
            apply_ite JumpingJackAnalyzer.consecutiveOpenFrames,
            apply_ite JumpingJackAnalyzer.consecutiveClosedFrames]

/-- Jumping-jack analog of squat_core_same (requiredFrames = 3). -/
theorem jj_core_same (s : JumpingJackAnalyzer) (r : ℝ) (a : Bool)
    (hraw : (if (7 : ℝ)/5 < r then OC.opened else OC.closed) = s.lastState)
    (hcl : s.lastState = .closed → s.consecutiveClosedFrames + 1 < 3)
    (hop : s.lastState = .opened → s.consecutiveOpenFrames + 1 < 3) :
    (s.analyzeCore r a).1.lastState = s.lastState ∧
    (s.analyzeCore r a).1.jumpCount = s.jumpCount ∧
    (s.analyzeCore r a).2.count = some (s.jumpCount / 2) := by
  rcases hL : s.lastState with _ | _
  · have hc := hcl hL
    by_cases hr : (7 : ℝ)/5 < r
    · rw [if_pos hr, hL] at hraw
      exact absurd hraw (by simp)
    · unfold JumpingJackAnalyzer.analyzeCore
      simp [hr, JumpingJackAnalyzer.updateJumpingJackCount, hL, Nat.lt_of_succ_lt_succ hc,
            apply_ite JumpingJackAnalyzer.jumpCount,
            apply_ite JumpingJackAnalyzer.consecutiveOpenFrames,
            apply_ite JumpingJackAnalyzer.consecutiveClosedFrames]
  · have hc := hop hL
    by_cases hr : (7 : ℝ)/5 < r
    · unfold JumpingJackAnalyzer.analyzeCore
      simp [hr, JumpingJackAnalyzer.updateJumpingJackCount, hL, Nat.lt_of_succ_lt_succ hc,
            apply_ite JumpingJackAnalyzer.jumpCount,
            apply_ite JumpingJackAnalyzer.consecutiveOpenFrames,
            apply_ite JumpingJackAnalyzer.consecutiveClosedFrames]
    · rw [if_neg hr, hL] at hraw
      exact absurd hraw (by simp)

/-- C9: for each rep-counting tracker, a raw-phase threshold crossing that
lasts exactly one frame (the counter of the crossing direction is 0 before
it) and reverts to the previous raw phase on the next frame changes neither
the confirmed phase (lastState) nor the reported count, on both frames. -/
theorem C9_debounce :
    (∀ (s : SquatAnalyzer) (lm1 lm2 : Frame),
       (squatLeftVisible lm1 || squatRightVisible lm1) = true →
       (squatLeftVisible lm2 || squatRightVisible lm2) = true →
       s.detectSquatState (squatKneeAngle lm1) ≠ s.lastState →
       s.detectSquatState (squatKneeAngle lm2) = s.lastState →
       (s.lastState = .up → s.consecutiveDownFrames = 0) →
       (s.lastState = .down → s.consecutiveUpFrames = 0) →
       (s.analyze lm1).1.lastState = s.lastState ∧
       (s.analyze lm1).2.count = some s.squatCount ∧
       ((s.analyze lm1).1.analyze lm2).1.lastState = s.lastState ∧
       ((s.analyze lm1).1.analyze lm2).2.count = some s.squatCount) ∧
    (∀ (s : PushupAnalyzer) (lm1 lm2 : Frame),
       pushupRejected lm1 = false → pushupRejected lm2 = false →
       s.detectPushupState (pushupArmAngleOf lm1) ≠ s.lastState →
       s.detectPushupState (pushupArmAngleOf lm2) = s.lastState →
       (s.lastState = .up → s.consecutiveDownFrames = 0) →
       (s.lastState = .down → s.consecutiveUpFrames = 0) →
       (s.analyze lm1).1.lastState = s.lastState ∧
       (s.analyze lm1).2.count = some s.pushupCount ∧
       ((s.analyze lm1).1.analyze lm2).1.lastState = s.lastState ∧
       ((s.analyze lm1).1.analyze lm2).2.count = some s.pushupCount) ∧
    (∀ (s : JumpingJackAnalyzer) (lm1 lm2 : Frame),
       jjRejected lm1 = false → jjRejected lm2 = false →
       jjRawStateOf lm1 ≠ s.lastState → jjRawStateOf lm2 = s.lastState →
       (s.lastState = .closed → s.consecutiveOpenFrames = 0) →
       (s.lastState = .opened → s.consecutiveClosedFrames = 0) →
       (s.analyze lm1).1.lastState = s.lastState ∧
       (s.analyze lm1).2.count = some (s.jumpCount / 2) ∧
       ((s.analyze lm1).1.analyze lm2).1.lastState = s.lastState ∧
       ((s.analyze lm1).1.analyze lm2).2.count = some (s.jumpCount / 2)) := by
  refine ⟨?_, ?_, ?_⟩
  · intro s lm1 lm2 a1 a2 r1 r2 hu hd
    have e1 := squat_accept s lm1 a1
    have c1 := squat_core_cross s (squatKneeAngle lm1) r1 hu hd
    have hs1L : (s.analyze lm1).1.lastState = s.lastState := by rw [e1]; exact c1.1
    have hs1C : (s.analyze lm1).1.squatCount = s.squatCount := by rw [e1]; exact c1.2.1
    have hr1 : (s.analyze lm1).2.count = some s.squatCount := by rw [e1]; exact c1.2.2.1
    have e2 := squat_accept (s.analyze lm1).1 lm2 a2
    have hdet2 : (s.analyze lm1).1.detectSquatState (squatKneeAngle lm2) =
        (s.analyze lm1).1.lastState := by
      unfold SquatAnalyzer.detectSquatState at r2 ⊢
      split_ifs at r2 ⊢ <;> simp_all
    have hup2 : (s.analyze lm1).1.lastState = .up →
        (s.analyze lm1).1.consecutiveUpFrames + 1 < 2 := by
      intro h
      have := c1.2.2.2.1 (by rw [← hs1L]; exact h)
      rw [e1]
      omega
    have hdn2 : (s.analyze lm1).1.lastState = .down →
        (s.analyze lm1).1.consecutiveDownFrames + 1 < 2 := by
      intro h
      have := c1.2.2.2.2 (by rw [← hs1L]; exact h)
      rw [e1]
      omega
    have c2 := squat_core_same (s.analyze lm1).1 (squatKneeAngle lm2) hdet2 hup2 hdn2
    refine ⟨hs1L, hr1, ?_, ?_⟩
    · rw [e2, c2.1, hs1L]
    · rw [e2, c2.2.2, hs1C]
  · intro s lm1 lm2 a1 a2 r1 r2 hu hd
    have e1 := pushup_accept s lm1 a1
    have c1 := pushup_core_cross s (pushupArmAngleOf lm1) r1 hu hd
    have hs1L : (s.analyze lm1).1.lastState = s.lastState := by rw [e1]; exact c1.1
    have hs1C : (s.analyze lm1).1.pushupCount = s.pushupCount := by rw [e1]; exact c1.2.1
    have hr1 : (s.analyze lm1).2.count = some s.pushupCount := by rw [e1]; exact c1.2.2.1
    have e2 := pushup_accept (s.analyze lm1).1 lm2 a2
    have hdet2 : (s.analyze lm1).1.detectPushupState (pushupArmAngleOf lm2) =
        (s.analyze lm1).1.lastState := by
      unfold PushupAnalyzer.detectPushupState at r2 ⊢
      split_ifs at r2 ⊢ <;> simp_all
    have hup2 : (s.analyze lm1).1.lastState = .up →
        (s.analyze lm1).1.consecutiveUpFrames + 1 < 5 := by
      intro h
      have := c1.2.2.2.1 (by rw [← hs1L]; exact h)
      rw [e1]
      omega
    have hdn2 : (s.analyze lm1).1.lastState = .down →
        (s.analyze lm1).1.consecutiveDownFrames + 1 < 5 := by
      intro h
      have := c1.2.2.2.2 (by rw [← hs1L]; exact h)
      rw [e1]
      omega
    have c2 := pushup_core_same (s.analyze lm1).1 (pushupArmAngleOf lm2) hdet2 hup2 hdn2
    refine ⟨hs1L, hr1, ?_, ?_⟩
    · rw [e2, c2.1, hs1L]
    · rw [e2, c2.2.2, hs1C]
  · intro s lm1 lm2 a1 a2 r1 r2 hcl hop
    have e1 := jj_accept s lm1 a1
    have hrw1 : (if (7 : ℝ)/5 < jjArmRatioOf lm1 then OC.opened else OC.closed) ≠
        s.lastState := r1
    have c1 := jj_core_cross s (jjArmRatioOf lm1) (jjArmsRaisedOf lm1) hrw1 hcl hop
    have hs1L : (s.analyze lm1).1.lastState = s.lastState := by rw [e1]; exact c1.1
    have hs1C : (s.analyze lm1).1.jumpCount = s.jumpCount := by rw [e1]; exact c1.2.1
    have hr1 : (s.analyze lm1).2.count = some (s.jumpCount / 2) := by rw [e1]; exact c1.2.2.1
    have e2 := jj_accept (s.analyze lm1).1 lm2 a2
    have hrw2 : (if (7 : ℝ)/5 < jjArmRatioOf lm2 then OC.opened else OC.closed) =
        (s.analyze lm1).1.lastState := by
      rw [hs1L]; exact r2
    have hcl2 : (s.analyze lm1).1.lastState = .closed →
        (s.analyze lm1).1.consecutiveClosedFrames + 1 < 3 := by
      intro h
      have := c1.2.2.2.1 (by rw [← hs1L]; exact h)
      rw [e1]
      omega
    have hop2 : (s.analyze lm1).1.lastState = .opened →
        (s.analyze lm1).1.consecutiveOpenFrames + 1 < 3 := by
      intro h
      have := c1.2.2.2.2 (by rw [← hs1L]; exact h)
      rw [e1]
      omega
    have c2 := jj_core_same (s.analyze lm1).1 (jjArmRatioOf lm2) (jjArmsRaisedOf lm2)
      hrw2 hcl2 hop2
    refine ⟨hs1L, hr1, ?_, ?_⟩
    · rw [e2, c2.1, hs1L]
    · rw [e2, c2.2.2, hs1C]

/-- C9 witness: one bent frame between straight frames (squat and pushup)
and one open frame between closed frames (jumping jack), from fresh
trackers: the confirmed phase and the reported count are unchanged. -/
theorem C9_witness :
    ((SquatAnalyzer.init.analyze squatFrameD).1.lastState = .up ∧
     ((SquatAnalyzer.init.analyze squatFrameD).1.analyze squatFrameU).1.lastState = .up ∧
     ((SquatAnalyzer.init.analyze squatFrameD).1.analyze squatFrameU).2.count = some 0) ∧
    ((PushupAnalyzer.init.analyze pushupFrameD).1.lastState = .up ∧
     ((PushupAnalyzer.init.analyze pushupFrameD).1.analyze pushupFrameU).1.lastState = .up ∧
     ((PushupAnalyzer.init.analyze pushupFrameD).1.analyze pushupFrameU).2.count = some 0) ∧
    ((JumpingJackAnalyzer.init.analyze jjFrameOpen).1.lastState = .closed ∧
     ((JumpingJackAnalyzer.init.analyze jjFrameOpen).1.analyze jjFrameClosed).1.lastState =
       .closed ∧
     ((JumpingJackAnalyzer.init.analyze jjFrameOpen).1.analyze jjFrameClosed).2.count =
       some 0) := by
  have d90 : SquatAnalyzer.init.detectSquatState (some 90) = .down := by
    unfold SquatAnalyzer.detectSquatState jsLtB
    norm_num
  have d180 : SquatAnalyzer.init.detectSquatState (some 180) = .up := by
    unfold SquatAnalyzer.detectSquatState jsLtB jsGtB
    norm_num
  have p90 : PushupAnalyzer.init.detectPushupState (some 90) = .down := by
    unfold PushupAnalyzer.detectPushupState jsLtB
    norm_num
  have p180 : PushupAnalyzer.init.detectPushupState (some 180) = .up := by
    unfold PushupAnalyzer.detectPushupState jsLtB jsGtB
    norm_num
  have ro : jjRawStateOf jjFrameOpen = .opened := by
    unfold jjRawStateOf
    rw [ratio_jFO]
    norm_num
  have rc : jjRawStateOf jjFrameClosed = .closed := by
    unfold jjRawStateOf
    rw [ratio_jFC]
    norm_num
  have hsq := C9_debounce.1 SquatAnalyzer.init squatFrameD squatFrameU
    (by rw [gate_sFD_L]; rfl) (by rw [gate_sFU_L]; rfl)
    (by rw [kneeAngle_D, d90]; simp [SquatAnalyzer.init])
    (by rw [kneeAngle_U, d180]; rfl)
    (fun _ => rfl) (by simp [SquatAnalyzer.init])
  have hpu := C9_debounce.2.1 PushupAnalyzer.init pushupFrameD pushupFrameU
    gate_pFD gate_pFU
    (by rw [armAngle_pFD, p90]; simp [PushupAnalyzer.init])
    (by rw [armAngle_pFU, p180]; rfl)
    (fun _ => rfl) (by simp [PushupAnalyzer.init])
  have hjj := C9_debounce.2.2 JumpingJackAnalyzer.init jjFrameOpen jjFrameClosed
    gate_jFO gate_jFC
    (by rw [ro]; simp [JumpingJackAnalyzer.init])
    (by rw [rc]; rfl)
    (fun _ => rfl) (by simp [JumpingJackAnalyzer.init])
  exact ⟨⟨hsq.1, hsq.2.2.1, hsq.2.2.2⟩, ⟨hpu.1, hpu.2.2.1, hpu.2.2.2⟩,
    ⟨hjj.1, hjj.2.2.1, hjj.2.2.2⟩⟩

/-- The count field of every accepted jumping-jack result is the updated
internal counter divided by 2, rounded down. -/
theorem jj_core_count (s : JumpingJackAnalyzer) (r : ℝ) (a : Bool) :
    (s.analyzeCore r a).2.count = some ((s.analyzeCore r a).1.jumpCount / 2) := by
  rfl

/-- States of the two-cycle jumping-jack run (helper for C5): one full
confirmed cycle at frame 6 (internal counter 1, displayed 0), a second at
frame 22 after the cooldown has expired (internal counter 2, displayed
1). -/
theorem jj_trace :
    jjIter jjSeq 6 = ⟨1, .closed, 0, 3, 10, .complete, false, 1/2⟩ ∧
    jjIter jjSeq 22 = ⟨2, .closed, 0, 3, 10, .complete, false, 1/2⟩ ∧
    (jjResAt jjSeq 5).count = some 0 ∧
    (jjResAt jjSeq 21).count = some 1 := by
  have h1 : jjIter jjSeq 1 = ⟨0, .closed, 1, 0, 0, .none, false, 5⟩ := by
    rw [show jjIter jjSeq 1 = ((jjIter jjSeq 0).analyze (jjSeq 0)).1 from rfl,
        show jjSeq 0 = jjFrameOpen from by norm_num [jjSeq], show jjIter jjSeq 0 = JumpingJackAnalyzer.init from rfl, jj_step_open]
    norm_num [JumpingJackAnalyzer.analyzeCore, JumpingJackAnalyzer.updateJumpingJackCount, JumpingJackAnalyzer.init]
    try simp
  have h2 : jjIter jjSeq 2 = ⟨0, .closed, 2, 0, 0, .none, false, 5⟩ := by
    rw [show jjIter jjSeq 2 = ((jjIter jjSeq 1).analyze (jjSeq 1)).1 from rfl,
        show jjSeq 1 = jjFrameOpen from by norm_num [jjSeq], h1, jj_step_open]
    norm_num [JumpingJackAnalyzer.analyzeCore, JumpingJackAnalyzer.updateJumpingJackCount]
    try simp
  have h3 : jjIter jjSeq 3 = ⟨0, .opened, 3, 0, 0, .opening, true, 5⟩ := by
    rw [show jjIter jjSeq 3 = ((jjIter jjSeq 2).analyze (jjSeq 2)).1 from rfl,
        show jjSeq 2 = jjFrameOpen from by norm_num [jjSeq], h2, jj_step_open]
    norm_num [JumpingJackAnalyzer.analyzeCore, JumpingJackAnalyzer.updateJumpingJackCount]
    try simp
  have h4 : jjIter jjSeq 4 = ⟨0, .opened, 0, 1, 0, .opening, true, 1/2⟩ := by
    rw [show jjIter jjSeq 4 = ((jjIter jjSeq 3).analyze (jjSeq 3)).1 from rfl,
        show jjSeq 3 = jjFrameClosed from by norm_num [jjSeq], h3, jj_step_closed]
    norm_num [JumpingJackAnalyzer.analyzeCore, JumpingJackAnalyzer.updateJumpingJackCount]
    try simp
  have h5 : jjIter jjSeq 5 = ⟨0, .opened, 0, 2, 0, .opening, true, 1/2⟩ := by
    rw [show jjIter jjSeq 5 = ((jjIter jjSeq 4).analyze (jjSeq 4)).1 from rfl,
        show jjSeq 4 = jjFrameClosed from by norm_num [jjSeq], h4, jj_step_closed]
    norm_num [JumpingJackAnalyzer.analyzeCore, JumpingJackAnalyzer.updateJumpingJackCount]
    try simp
  have h6 : jjIter jjSeq 6 = ⟨1, .closed, 0, 3, 10, .complete, false, 1/2⟩ := by
    rw [show jjIter jjSeq 6 = ((jjIter jjSeq 5).analyze (jjSeq 5)).1 from rfl,
        show jjSeq 5 = jjFrameClosed from by norm_num [jjSeq], h5, jj_step_closed]
    norm_num [JumpingJackAnalyzer.analyzeCore, JumpingJackAnalyzer.updateJumpingJackCount]
    try simp
  have h7 : jjIter jjSeq 7 = ⟨1, .closed, 0, 4, 9, .complete, false, 1/2⟩ := by
    rw [show jjIter jjSeq 7 = ((jjIter jjSeq 6).analyze (jjSeq 6)).1 from rfl,
        show jjSeq 6 = jjFrameClosed from by norm_num [jjSeq], h6, jj_step_closed]
    norm_num [JumpingJackAnalyzer.analyzeCore, JumpingJackAnalyzer.updateJumpingJackCount]
    try simp
  have h8 : jjIter jjSeq 8 = ⟨1, .closed, 0, 5, 8, .complete, false, 1/2⟩ := by
    rw [show jjIter jjSeq 8 = ((jjIter jjSeq 7).analyze (jjSeq 7)).1 from rfl,
        show jjSeq 7 = jjFrameClosed from by norm_num [jjSeq], h7, jj_step_closed]
    norm_num [JumpingJackAnalyzer.analyzeCore, JumpingJackAnalyzer.updateJumpingJackCount]
    try simp
  have h9 : jjIter jjSeq 9 = ⟨1, .closed, 0, 6, 7, .complete, false, 1/2⟩ := by
    rw [show jjIter jjSeq 9 = ((jjIter jjSeq 8).analyze (jjSeq 8)).1 from rfl,
        show jjSeq 8 = jjFrameClosed from by norm_num [jjSeq], h8, jj_step_closed]
    norm_num [JumpingJackAnalyzer.analyzeCore, JumpingJackAnalyzer.updateJumpingJackCount]
    try simp
  have h10 : jjIter jjSeq 10 = ⟨1, .closed, 0, 7, 6, .complete, false, 1/2⟩ := by
    rw [show jjIter jjSeq 10 = ((jjIter jjSeq 9).analyze (jjSeq 9)).1 from rfl,
        show jjSeq 9 = jjFrameClosed from by norm_num [jjSeq], h9, jj_step_closed]
    norm_num [JumpingJackAnalyzer.analyzeCore, JumpingJackAnalyzer.updateJumpingJackCount]
    try simp
  have h11 : jjIter jjSeq 11 = ⟨1, .closed, 0, 8, 5, .complete, false, 1/2⟩ := by
    rw [show jjIter jjSeq 11 = ((jjIter jjSeq 10).analyze (jjSeq 10)).1 from rfl,
        show jjSeq 10 = jjFrameClosed from by norm_num [jjSeq], h10, jj_step_closed]
    norm_num [JumpingJackAnalyzer.analyzeCore, JumpingJackAnalyzer.updateJumpingJackCount]
    try simp
  have h12 : jjIter jjSeq 12 = ⟨1, .closed, 0, 9, 4, .complete, false, 1/2⟩ := by
    rw [show jjIter jjSeq 12 = ((jjIter jjSeq 11).analyze (jjSeq 11)).1 from rfl,
        show jjSeq 11 = jjFrameClosed from by norm_num [jjSeq], h11, jj_step_closed]
    norm_num [JumpingJackAnalyzer.analyzeCore, JumpingJackAnalyzer.updateJumpingJackCount]
    try simp
  have h13 : jjIter jjSeq 13 = ⟨1, .closed, 0, 10, 3, .complete, false, 1/2⟩ := by
    rw [show jjIter jjSeq 13 = ((jjIter jjSeq 12).analyze (jjSeq 12)).1 from rfl,
        show jjSeq 12 = jjFrameClosed from by norm_num [jjSeq], h12, jj_step_closed]
    norm_num [JumpingJackAnalyzer.analyzeCore, JumpingJackAnalyzer.updateJumpingJackCount]
    try simp
  have h14 : jjIter jjSeq 14 = ⟨1, .closed, 0, 11, 2, .complete, false, 1/2⟩ := by
    rw [show jjIter jjSeq 14 = ((jjIter jjSeq 13).analyze (jjSeq 13)).1 from rfl,
        show jjSeq 13 = jjFrameClosed from by norm_num [jjSeq], h13, jj_step_closed]
    norm_num [JumpingJackAnalyzer.analyzeCore, JumpingJackAnalyzer.updateJumpingJackCount]
    try simp
  have h15 : jjIter jjSeq 15 = ⟨1, .closed, 0, 12, 1, .complete, false, 1/2⟩ := by
    rw [show jjIter jjSeq 15 = ((jjIter jjSeq 14).analyze (jjSeq 14)).1 from rfl,
        show jjSeq 14 = jjFrameClosed from by norm_num [jjSeq], h14, jj_step_closed]
    norm_num [JumpingJackAnalyzer.analyzeCore, JumpingJackAnalyzer.updateJumpingJackCount]
    try simp
  have h16 : jjIter jjSeq 16 = ⟨1, .closed, 0, 13, 0, .complete, false, 1/2⟩ := by
    rw [show jjIter jjSeq 16 = ((jjIter jjSeq 15).analyze (jjSeq 15)).1 from rfl,
        show jjSeq 15 = jjFrameClosed from by norm_num [jjSeq], h15, jj_step_closed]
    norm_num [JumpingJackAnalyzer.analyzeCore, JumpingJackAnalyzer.updateJumpingJackCount]
    try simp
  have h17 : jjIter jjSeq 17 = ⟨1, .closed, 1, 0, 0, .complete, false, 5⟩ := by
    rw [show jjIter jjSeq 17 = ((jjIter jjSeq 16).analyze (jjSeq 16)).1 from rfl,
        show jjSeq 16 = jjFrameOpen from by norm_num [jjSeq], h16, jj_step_open]
    norm_num [JumpingJackAnalyzer.analyzeCore, JumpingJackAnalyzer.updateJumpingJackCount]
    try simp
  have h18 : jjIter jjSeq 18 = ⟨1, .closed, 2, 0, 0, .complete, false, 5⟩ := by
    rw [show jjIter jjSeq 18 = ((jjIter jjSeq 17).analyze (jjSeq 17)).1 from rfl,
        show jjSeq 17 = jjFrameOpen from by norm_num [jjSeq], h17, jj_step_open]
    norm_num [JumpingJackAnalyzer.analyzeCore, JumpingJackAnalyzer.updateJumpingJackCount]
    try simp
  have h19 : jjIter jjSeq 19 = ⟨1, .opened, 3, 0, 0, .opening, true, 5⟩ := by
    rw [show jjIter jjSeq 19 = ((jjIter jjSeq 18).analyze (jjSeq 18)).1 from rfl,
        show jjSeq 18 = jjFrameOpen from by norm_num [jjSeq], h18, jj_step_open]
    norm_num [JumpingJackAnalyzer.analyzeCore, JumpingJackAnalyzer.updateJumpingJackCount]
    try simp
  have h20 : jjIter jjSeq 20 = ⟨1, .opened, 0, 1, 0, .opening, true, 1/2⟩ := by
    rw [show jjIter jjSeq 20 = ((jjIter jjSeq 19).analyze (jjSeq 19)).1 from rfl,
        show jjSeq 19 = jjFrameClosed from by norm_num [jjSeq], h19, jj_step_closed]
    norm_num [JumpingJackAnalyzer.analyzeCore, JumpingJackAnalyzer.updateJumpingJackCount]
    try simp
  have h21 : jjIter jjSeq 21 = ⟨1, .opened, 0, 2, 0, .opening, true, 1/2⟩ := by
    rw [show jjIter jjSeq 21 = ((jjIter jjSeq 20).analyze (jjSeq 20)).1 from rfl,
        show jjSeq 20 = jjFrameClosed from by norm_num [jjSeq], h20, jj_step_closed]
    norm_num [JumpingJackAnalyzer.analyzeCore, JumpingJackAnalyzer.updateJumpingJackCount]
    try simp
  have h22 : jjIter jjSeq 22 = ⟨2, .closed, 0, 3, 10, .complete, false, 1/2⟩ := by
    rw [show jjIter jjSeq 22 = ((jjIter jjSeq 21).analyze (jjSeq 21)).1 from rfl,
        show jjSeq 21 = jjFrameClosed from by norm_num [jjSeq], h21, jj_step_closed]
    norm_num [JumpingJackAnalyzer.analyzeCore, JumpingJackAnalyzer.updateJumpingJackCount]
    try simp
  refine ⟨h6, h22, ?_, ?_⟩
  · rw [show jjResAt jjSeq 5 = ((jjIter jjSeq 5).analyze (jjSeq 5)).2 from rfl,
        show jjSeq 5 = jjFrameClosed from by norm_num [jjSeq], jj_step_closed, jj_core_count]
    rw [show ((jjIter jjSeq 5).analyzeCore (1/2) false).1 =
          ((jjIter jjSeq 5).analyze jjFrameClosed).1 from by rw [jj_step_closed],
        show ((jjIter jjSeq 5).analyze jjFrameClosed).1 = jjIter jjSeq 6 from by
          rw [show jjIter jjSeq 6 = ((jjIter jjSeq 5).analyze (jjSeq 5)).1 from rfl,
              show jjSeq 5 = jjFrameClosed from by norm_num [jjSeq]],
        h6]
    norm_num
  · rw [show jjResAt jjSeq 21 = ((jjIter jjSeq 21).analyze (jjSeq 21)).2 from rfl,
        show jjSeq 21 = jjFrameClosed from by norm_num [jjSeq], jj_step_closed, jj_core_count]
    rw [show ((jjIter jjSeq 21).analyzeCore (1/2) false).1 =
          ((jjIter jjSeq 21).analyze jjFrameClosed).1 from by rw [jj_step_closed],
        show ((jjIter jjSeq 21).analyze jjFrameClosed).1 = jjIter jjSeq 22 from by
          rw [show jjIter jjSeq 22 = ((jjIter jjSeq 21).analyze (jjSeq 21)).1 from rfl,
              show jjSeq 21 = jjFrameClosed from by norm_num [jjSeq]],
        h22]
    norm_num

/-- C5 amended: the internal cycle counter increments by exactly 1 exactly
when a confirmed opened-to-closed transition completes an opening cycle
with the cooldown at 0; the count field of every ACCEPTED frame's result is
the internal counter divided by 2 rounded down (rejected frames report the
raw internal counter instead, which is the correction); and on the
concrete two-cycle run, one completed cycle displays count 0 and the
second displays count 1. -/
theorem C5_jj_count :
    (∀ (s : JumpingJackAnalyzer) (p c : OC),
       (s.updateJumpingJackCount p c).1.jumpCount =
         (if p = .opened ∧ c = .closed ∧ s.movementPhase = .opening ∧
             s.inOpenPosition = true ∧ s.cooldownCounter = 0
          then s.jumpCount + 1 else s.jumpCount)) ∧
    (∀ (s : JumpingJackAnalyzer) (lm : Frame), jjRejected lm = false →
       (s.analyze lm).2.count = some ((s.analyze lm).1.jumpCount / 2)) ∧
    ((jjIter jjSeq 6).jumpCount = 1 ∧ (jjResAt jjSeq 5).count = some 0) ∧
    ((jjIter jjSeq 22).jumpCount = 2 ∧ (jjResAt jjSeq 21).count = some 1) := by
  refine ⟨?_, ?_, ?_, ?_⟩
  · intro s p c
    rcases p <;> rcases c <;>
      simp [JumpingJackAnalyzer.updateJumpingJackCount] <;>
      split_ifs <;> simp_all
  · intro s lm h
    rw [jj_accept s lm h]
    exact jj_core_count _ _ _
  · exact ⟨by rw [jj_trace.1], jj_trace.2.2.1⟩
  · exact ⟨by rw [jj_trace.2.1], jj_trace.2.2.2⟩

/-- C5 counterexample: after one completed cycle (internal counter 1) an
out-of-view frame reports count = 1, the raw internal counter, which is
not floor(1/2) = 0 — so not every analyze result reports
floor(internalCounter / 2). -/
theorem C5_cex :
    ((jjIter jjSeq 6).analyze []).1.jumpCount = 1 ∧
    ((jjIter jjSeq 6).analyze []).2.count = some 1 ∧
    ((jjIter jjSeq 6).analyze []).2.count ≠
      some (((jjIter jjSeq 6).analyze []).1.jumpCount / 2) := by
  have hrej : jjRejected ([] : Frame) = true := by simp [jjRejected, visOk]
  have he : ∀ s : JumpingJackAnalyzer, s.analyze [] =
      (s, ⟨false, some 0, "请确保上半身在摄像头范围内", some s.jumpCount, none⟩) := by
    intro s
    unfold JumpingJackAnalyzer.analyze
    rw [hrej]
    simp
  rw [he, jj_trace.1]
  norm_num

/-- C5 witness: the accepted-frame count formula applied to a fresh tracker
on the concrete open frame, and the increment characterization applied to a
state about to complete a cycle. -/
theorem C5_witness :
    (JumpingJackAnalyzer.init.analyze jjFrameOpen).2.count =
      some ((JumpingJackAnalyzer.init.analyze jjFrameOpen).1.jumpCount / 2) ∧
    (JumpingJackAnalyzer.updateJumpingJackCount
      ⟨0, .opened, 0, 2, 0, .opening, true, 1/2⟩ .opened .closed).1.jumpCount = 1 := by
  constructor
  · exact C5_jj_count.2.1 JumpingJackAnalyzer.init jjFrameOpen gate_jFO
  · rw [C5_jj_count.1 ⟨0, .opened, 0, 2, 0, .opening, true, 1/2⟩ .opened .closed]
    norm_num
